import Mathlib

/-!
# ruby-vips: band-format symbols, header accessors and the histogram / LUT wrappers

A shallow embedding of `ext/header.c` and `ext/image_histograms_lut.c`.

The extension is a thin layer between the Ruby interpreter and the VIPS image
library.  Both of those are outside the two source files, so they appear here
as explicit collaborators: Ruby's conversions and VIPS's routines are fields of
an environment record, and every call into VIPS is written to a log so that
"which routine was called, with which arguments" is a fact one can state.
-/

namespace RubyVips

/-! ## Band formats and their symbols (`header.c`, lines 8-46 and 253-263) -/

/-- A Ruby symbol identifier (`ID`, an unsigned long). -/
abbrev ID := Nat

/-- The element-type tag of a raster.  In C this is an enum, that is an
integer: the functions below receive any integer, not only an enumerated one. -/
abbrev VipsBandFmt := Int

/-- Modelled from the spec: the `VipsBandFmt` enumeration is declared in the
VIPS headers, not under `src/`.  The spec lists its members as unset, u8, i8,
u16, i16, u32, i32, f32, complex64, f64, complex128, in this order; VIPS numbers
them from -1 (unset) to 9. -/
def IM_BANDFMT_NOTSET : VipsBandFmt := -1
/-- Modelled from the spec: unsigned 8-bit samples, see `IM_BANDFMT_NOTSET`. -/
def IM_BANDFMT_UCHAR : VipsBandFmt := 0
/-- Modelled from the spec: signed 8-bit samples, see `IM_BANDFMT_NOTSET`. -/
def IM_BANDFMT_CHAR : VipsBandFmt := 1
/-- Modelled from the spec: unsigned 16-bit samples, see `IM_BANDFMT_NOTSET`. -/
def IM_BANDFMT_USHORT : VipsBandFmt := 2
/-- Modelled from the spec: signed 16-bit samples, see `IM_BANDFMT_NOTSET`. -/
def IM_BANDFMT_SHORT : VipsBandFmt := 3
/-- Modelled from the spec: unsigned 32-bit samples, see `IM_BANDFMT_NOTSET`. -/
def IM_BANDFMT_UINT : VipsBandFmt := 4
/-- Modelled from the spec: signed 32-bit samples, see `IM_BANDFMT_NOTSET`. -/
def IM_BANDFMT_INT : VipsBandFmt := 5
/-- Modelled from the spec: 32-bit float samples, see `IM_BANDFMT_NOTSET`. -/
def IM_BANDFMT_FLOAT : VipsBandFmt := 6
/-- Modelled from the spec: two 32-bit floats, see `IM_BANDFMT_NOTSET`. -/
def IM_BANDFMT_COMPLEX : VipsBandFmt := 7
/-- Modelled from the spec: 64-bit float samples, see `IM_BANDFMT_NOTSET`. -/
def IM_BANDFMT_DOUBLE : VipsBandFmt := 8
/-- Modelled from the spec: two 64-bit floats, see `IM_BANDFMT_NOTSET`. -/
def IM_BANDFMT_DPCOMPLEX : VipsBandFmt := 9

/-- The eleven enumerated band formats, in declaration order. -/
def bandFmts : List VipsBandFmt :=
  [IM_BANDFMT_NOTSET, IM_BANDFMT_UCHAR, IM_BANDFMT_CHAR, IM_BANDFMT_USHORT,
   IM_BANDFMT_SHORT, IM_BANDFMT_UINT, IM_BANDFMT_INT, IM_BANDFMT_FLOAT,
   IM_BANDFMT_COMPLEX, IM_BANDFMT_DOUBLE, IM_BANDFMT_DPCOMPLEX]

/-- The file-level statics `id_notset, ..., id_dbcomplex` of `header.c`. -/
structure HeaderIds where
  id_notset : ID
  id_uchar : ID
  id_char : ID
  id_ushort : ID
  id_short : ID
  id_uint : ID
  id_int : ID
  id_float : ID
  id_complex : ID
  id_double : ID
  id_dbcomplex : ID
  deriving DecidableEq, Repr

/-- The eleven statics as a list, in declaration order. -/
def HeaderIds.all (ids : HeaderIds) : List ID :=
  [ids.id_notset, ids.id_uchar, ids.id_char, ids.id_ushort, ids.id_short,
   ids.id_uint, ids.id_int, ids.id_float, ids.id_complex, ids.id_double,
   ids.id_dbcomplex]

/-- The names `init_header` interns, in the order of its assignments. -/
def bandFmtNames : List String :=
  ["NOTSET", "UCHAR", "CHAR", "USHORT", "SHORT", "UINT", "INT", "FLOAT",
   "COMPLEX", "DOUBLE", "DBCOMPLEX"]

/-- The assignments at the end of `init_header` (lines 253-263): each static
receives the identifier Ruby's `rb_intern` gives for its name.  `rb_intern` is
the interpreter's, so it is a parameter.  (The method registrations before
them only fill Ruby's method table.) -/
def init_header (rb_intern : String → ID) : HeaderIds where
  id_notset := rb_intern "NOTSET"
  id_uchar := rb_intern "UCHAR"
  id_char := rb_intern "CHAR"
  id_ushort := rb_intern "USHORT"
  id_short := rb_intern "SHORT"
  id_uint := rb_intern "UINT"
  id_int := rb_intern "INT"
  id_float := rb_intern "FLOAT"
  id_complex := rb_intern "COMPLEX"
  id_double := rb_intern "DOUBLE"
  id_dbcomplex := rb_intern "DBCOMPLEX"

/-- The function `header_band_fmt_to_id` (lines 11-28): a switch over the tag
with a `return id_notset` after it. -/
def header_band_fmt_to_id (ids : HeaderIds) (band_fmt : VipsBandFmt) : ID :=
  if band_fmt = IM_BANDFMT_NOTSET then ids.id_notset
  else if band_fmt = IM_BANDFMT_UCHAR then ids.id_uchar
  else if band_fmt = IM_BANDFMT_CHAR then ids.id_char
  else if band_fmt = IM_BANDFMT_USHORT then ids.id_ushort
  else if band_fmt = IM_BANDFMT_SHORT then ids.id_short
  else if band_fmt = IM_BANDFMT_UINT then ids.id_uint
  else if band_fmt = IM_BANDFMT_INT then ids.id_int
  else if band_fmt = IM_BANDFMT_FLOAT then ids.id_float
  else if band_fmt = IM_BANDFMT_COMPLEX then ids.id_complex
  else if band_fmt = IM_BANDFMT_DOUBLE then ids.id_double
  else if band_fmt = IM_BANDFMT_DPCOMPLEX then ids.id_dbcomplex
  else ids.id_notset

/-- The C null pointer converted to the enum type: the integer zero. -/
def NULL_as_VipsBandFmt : VipsBandFmt := 0

/-- The function `header_id_to_band_fmt` (lines 30-46): a chain of comparisons
against the statics, first match wins, and `return (VipsBandFmt)NULL` when
none matches. -/
def header_id_to_band_fmt (ids : HeaderIds) (rb : ID) : VipsBandFmt :=
  if rb = ids.id_notset then IM_BANDFMT_NOTSET
  else if rb = ids.id_uchar then IM_BANDFMT_UCHAR
  else if rb = ids.id_char then IM_BANDFMT_CHAR
  else if rb = ids.id_ushort then IM_BANDFMT_USHORT
  else if rb = ids.id_short then IM_BANDFMT_SHORT
  else if rb = ids.id_uint then IM_BANDFMT_UINT
  else if rb = ids.id_int then IM_BANDFMT_INT
  else if rb = ids.id_float then IM_BANDFMT_FLOAT
  else if rb = ids.id_complex then IM_BANDFMT_COMPLEX
  else if rb = ids.id_double then IM_BANDFMT_DOUBLE
  else if rb = ids.id_dbcomplex then IM_BANDFMT_DPCOMPLEX
  else NULL_as_VipsBandFmt

/-- A concrete interning function for worked examples: a name is numbered by
the code points of its characters.  Like Ruby's, it gives different names
different identifiers. -/
def sampleIntern (s : String) : ID :=
  Encodable.encode (s.data.map Char.toNat)

/-! ## Ruby values, rasters and the state the wrappers run in -/

/-- A C floating-point value.  The extension hands such values from Ruby to
VIPS and back without computing with them, so it is carried as its bit
pattern. -/
structure CDouble where
  bits : Nat
  deriving DecidableEq, Repr

/-- The raster record `VipsImage`: the header fields `header.c` reads, and the
sample buffer (row-major, bands interleaved). -/
structure IMAGE where
  Xsize : Int
  Ysize : Int
  Bands : Int
  BandFmt : VipsBandFmt
  Xres : CDouble
  Yres : CDouble
  Xoffset : Int
  Yoffset : Int
  samples : List Int
  deriving DecidableEq, Repr

/-- A coefficient matrix (`DOUBLEMASK`), the control-point input of the LUT
builders. -/
structure DOUBLEMASK where
  xsize : Int
  ysize : Int
  coeff : List CDouble
  deriving DecidableEq, Repr

/-- Ruby values, as far as the two files tell them apart.  An image object is
a reference into the object store of `World`. -/
inductive VALUE where
  | Qnil
  | Qtrue
  | Qfalse
  | integer (n : Int)
  | float (x : CDouble)
  | symbol (id : ID)
  | string (bytes : List Nat)
  | array (items : List VALUE)
  | object (ref : Nat)

/-- The C struct behind an image object: its raster pointer, which may be
null. -/
structure vipsImg where
  im : Option IMAGE
  deriving DecidableEq, Repr

/-- An invocation of a VIPS routine with its input arguments.  The output
rasters a routine fills are named by the wrapper, see `invoke`. -/
inductive LibCall where
  | im_histgr (im : Option IMAGE) (bandno : Int)
  | im_histnD (im : Option IMAGE) (bins : Int)
  | im_identity (bands : Int)
  | im_identity_ushort (bands sz : Int)
  | im_invertlut (dmask : DOUBLEMASK) (lut_size : Int)
  | im_buildlut (dmask : DOUBLEMASK)
  | im_project (im : Option IMAGE)
  | im_maplut (im lut : Option IMAGE)
  | im_ismonotonic (im : Option IMAGE)
  | im_hist (im : Option IMAGE) (bandno : Int)
  | im_gammacorrect (im : Option IMAGE) (exponent : CDouble)
  | im_mpercent_hist (im : Option IMAGE) (percent : CDouble)
  | im_mpercent (im : Option IMAGE) (percent : CDouble)
  | im_heq (im : Option IMAGE) (bandno : Int)
  | im_lhisteq (im : Option IMAGE) (xwin ywin : Int)
  | im_stdif (im : Option IMAGE) (a m0 b s0 : CDouble) (xwin ywin : Int)
  | im_tone_build_range (in_max out_max lb lw ps pm ph s m h : CDouble)
  | im_tone_build (lb lw ps pm ph s m h : CDouble)
  | im_tone_analyse (im : Option IMAGE) (ps pm ph s m h : CDouble)
  | im_meta_get_blob (im : Option IMAGE) (name : String)
  | im_header_get_typeof (im : Option IMAGE) (name : String)
  deriving DecidableEq, Repr

/-- What a VIPS routine hands back: its integer return value, the rasters it
wrote to its output images (in argument order), the integer it stored through
an `int *` argument, the buffer and length it stored through blob arguments,
and the text it left in the library's error buffer. -/
structure LibReply where
  status : Int
  outs : List IMAGE
  ret : Int
  buf : List Nat
  len : Nat
  diag : String
  deriving DecidableEq, Repr

/-- An exception raised inside one of the interpreter's own routines while an
argument is read (`TypeError`, `RangeError`, `ArgumentError`). -/
structure RubyExn where
  cls : String
  msg : String
  deriving DecidableEq, Repr

/-- The ways a wrapper can raise, told apart by where the raise happens. -/
inductive Exn where
  /-- Raised while an argument is fetched or converted. -/
  | argument (e : RubyExn)
  /-- The statement `rb_raise(eVIPSError, msg)`. -/
  | eVIPSError (msg : String)
  /-- The statement `vips_lib_error()`, with the library's diagnostic. -/
  | lib_error (diag : String)
  deriving DecidableEq, Repr

/-- Everything the wrappers can read or change: the image objects allocated so
far (an object reference is an index), the log of library calls, oldest first,
and the library's error buffer. -/
structure World where
  objs : List vipsImg
  calls : List LibCall
  errbuf : String
  deriving DecidableEq, Repr

/-- The collaborators outside the two files: the VIPS version the extension is
compiled against, Ruby's numeric conversions, the mask converter of `mask.c`,
the two metadata field names of the VIPS headers, and the VIPS routines. -/
structure Env where
  IM_MAJOR_VERSION : Nat
  IM_MINOR_VERSION : Nat
  NUM2INT : VALUE → Except RubyExn Int
  NUM2DBL : VALUE → Except RubyExn CDouble
  mask_arg2mask : VALUE → Except RubyExn DOUBLEMASK
  IM_META_EXIF_NAME : String
  IM_META_ICC_NAME : String
  lib : LibCall → LibReply

/-- A wrapper body: it runs in a world and either returns or raises; the world
it leaves behind is kept in both cases. -/
def Rb (α : Type) : Type := World → Except Exn α × World

/-- Return without touching the world. -/
def Rb.pure {α : Type} (a : α) : Rb α := fun w => (Except.ok a, w)

/-- Sequencing: a raise in the first part skips the second. -/
def Rb.bind {α β : Type} (m : Rb α) (f : α → Rb β) : Rb β := fun w =>
  match m w with
  | (Except.ok a, w1) => f a w1
  | (Except.error e, w1) => (Except.error e, w1)

instance : Monad Rb where
  pure := Rb.pure
  bind := Rb.bind

/-- Raise an exception. -/
def Rb.raise {α : Type} (e : Exn) : Rb α := fun w => (Except.error e, w)

/-- Run one of the interpreter's conversions; its exception, if any, is
raised. -/
def Rb.convert {α : Type} (r : Except RubyExn α) : Rb α :=
  match r with
  | Except.ok a => Rb.pure a
  | Except.error e => Rb.raise (Exn.argument e)

/-! ## The interpreter's and the extension's helpers -/

/-- Ruby's `NIL_P`. -/
def NIL_P : VALUE → Bool
  | VALUE.Qnil => true
  | _ => false

/-- Ruby's `INT2FIX`: a C int as a Ruby Integer.  A 32-bit int always fits the
63-bit Fixnum of an LP64 build, so no bits are lost. -/
def INT2FIX (i : Int) : VALUE := VALUE.integer i

/-- Ruby's `INT2NUM`: a C int as a Ruby Integer. -/
def INT2NUM (i : Int) : VALUE := VALUE.integer i

/-- Ruby's `rb_float_new`. -/
def rb_float_new (x : CDouble) : VALUE := VALUE.float x

/-- Ruby's `ID2SYM`. -/
def ID2SYM (id : ID) : VALUE := VALUE.symbol id

/-- Ruby's `rb_ary_new3(2, a, b)`. -/
def rb_ary_new3_2 (a b : VALUE) : VALUE := VALUE.array [a, b]

/-- Ruby's `rb_tainted_str_new(buf, len)`: a string of the first `len` bytes
at `buf`. -/
def rb_tainted_str_new (buf : List Nat) (len : Nat) : VALUE :=
  VALUE.string (buf.take len)

/-- Ruby's `rb_scan_args(argc, argv, "01", &v)`: no argument leaves `v` nil,
one argument is stored in `v`, more raise `ArgumentError`. -/
def rb_scan_args_01 (argv : List VALUE) : Rb VALUE :=
  match argv with
  | [] => Rb.pure VALUE.Qnil
  | [v] => Rb.pure v
  | _ => Rb.raise (Exn.argument ⟨"ArgumentError", "wrong number of arguments"⟩)

/-- Modelled from the spec: the raster a freshly allocated output image holds
before a routine fills it (the "partial output" of the spec's external
interfaces section); allocation is in `image.c`, not under `src/`. -/
def freshImage : IMAGE :=
  { Xsize := 0, Ysize := 0, Bands := 0, BandFmt := IM_BANDFMT_NOTSET,
    Xres := ⟨0⟩, Yres := ⟨0⟩, Xoffset := 0, Yoffset := 0, samples := [] }

/-- Modelled from the spec: the helper `GetImg(obj, data, im)` comes from
`image.h`, not under `src/`.  It fetches the struct behind an image object and
reads its raster pointer; Ruby raises `TypeError` when `obj` wraps no such
struct. -/
def GetImg (obj : VALUE) : Rb (Option IMAGE) := fun w =>
  match obj with
  | VALUE.object ref =>
    match w.objs[ref]? with
    | some data => (Except.ok data.im, w)
    | none => (Except.error (Exn.argument ⟨"TypeError", "wrong argument type"⟩), w)
  | _ => (Except.error (Exn.argument ⟨"TypeError", "wrong argument type"⟩), w)

/-- Allocate a new image object holding a fresh output raster. -/
def allocImg : Rb VALUE := fun w =>
  (Except.ok (VALUE.object w.objs.length), { w with objs := w.objs ++ [⟨some freshImage⟩] })

/-- Modelled from the spec: the helper `OutImg(obj, new, data_new, im_new)`
comes from `image.h`, not under `src/`: the collaborator "allocates output
rasters".  It makes a new image object `new` whose raster `im_new` is a fresh
output image kept alive together with `obj`. -/
def OutImg (_obj : VALUE) : Rb VALUE := allocImg

/-- Modelled from the spec: the helper `OutImg2`, as `OutImg` with two
parents. -/
def OutImg2 (_obj _obj2 : VALUE) : Rb VALUE := allocImg

/-- Modelled from the spec: the helper `OutPartial(new, data, im)`, as
`OutImg` without a parent. -/
def OutPartial : Rb VALUE := allocImg

/-- Modelled from the spec: the helper `vips_lib_error` is in `ruby_vips.c`,
not under `src/`.  By the spec a backend failure "surfaces as a
ComputationFailed condition carrying the underlying diagnostic message": it
raises with the text of the library's error buffer and does not return. -/
def vips_lib_error {α : Type} : Rb α := fun w =>
  (Except.error (Exn.lib_error w.errbuf), w)

/-- Ruby's `rb_raise(eVIPSError, msg)`. -/
def rb_raise_eVIPSError {α : Type} (msg : String) : Rb α :=
  Rb.raise (Exn.eVIPSError msg)

/-- Store a raster in the object a value refers to. -/
def setRaster (objs : List vipsImg) (target : VALUE) (im : IMAGE) : List vipsImg :=
  match target with
  | VALUE.object ref => objs.set ref ⟨some im⟩
  | _ => objs

/-- Store the rasters a routine wrote in the output objects, pairwise in
argument order. -/
def writeOuts (objs : List vipsImg) : List VALUE → List IMAGE → List vipsImg
  | t :: ts, im :: ims => writeOuts (setRaster objs t im) ts ims
  | _, _ => objs

/-- Call a VIPS routine: the call is appended to the log, what the routine
wrote to its output images is stored in the objects `outs`, its diagnostic is
appended to the error buffer, and its reply is returned. -/
def invoke (env : Env) (c : LibCall) (outs : List VALUE) : Rb LibReply := fun w =>
  (Except.ok (env.lib c),
   { objs := writeOuts w.objs outs (env.lib c).outs,
     calls := w.calls ++ [c],
     errbuf := w.errbuf ++ (env.lib c).diag })

/-- Modelled from the spec: the macro `ATLEAST_VIPS(major, minor)` is defined
in `ruby_vips.h`, not under `src/`.  It guards the spec's "version-gated
operations": true when the VIPS version compiled against is at least
`major.minor`. -/
def ATLEAST_VIPS (env : Env) (major minor : Nat) : Bool :=
  decide (env.IM_MAJOR_VERSION > major) ||
    (decide (env.IM_MAJOR_VERSION = major) && decide (env.IM_MINOR_VERSION ≥ minor))

/-- The text both version-gated wrappers raise with. -/
def unsupportedMsg : String :=
  "This operation is not supported by your version of VIPS"

/-! ## The wrappers of `image_histograms_lut.c`

Each body follows the C statement by statement.  Where several conversions
appear as arguments of one call, C leaves their order open; here they run left
to right. -/

/-- The function `img_histgr` (lines 14-29). -/
def img_histgr (env : Env) (argv : List VALUE) (obj : VALUE) : Rb VALUE := do
  let im ← GetImg obj
  let new ← OutImg obj
  let v_bandno ← rb_scan_args_01 argv
  let bandno ← (if NIL_P v_bandno then Rb.pure (-1) else Rb.convert (env.NUM2INT v_bandno))
  let r ← invoke env (LibCall.im_histgr im bandno) [new]
  if r.status ≠ 0 then vips_lib_error
  return new

/-- The function `img_histnd` (lines 40-50). -/
def img_histnd (env : Env) (obj bins : VALUE) : Rb VALUE := do
  let im ← GetImg obj
  let new ← OutImg obj
  let n ← Rb.convert (env.NUM2INT bins)
  let r ← invoke env (LibCall.im_histnD im n) [new]
  if r.status ≠ 0 then vips_lib_error
  return new

/-- The function `img_s_identity` (lines 85-94). -/
def img_s_identity (env : Env) (_obj bands : VALUE) : Rb VALUE := do
  let new ← OutPartial
  let n ← Rb.convert (env.NUM2INT bands)
  let r ← invoke env (LibCall.im_identity n) [new]
  if r.status ≠ 0 then vips_lib_error
  return new

/-- The function `img_s_identity_ushort` (lines 107-116). -/
def img_s_identity_ushort (env : Env) (_obj bands sz : VALUE) : Rb VALUE := do
  let new ← OutPartial
  let n ← Rb.convert (env.NUM2INT bands)
  let k ← Rb.convert (env.NUM2INT sz)
  let r ← invoke env (LibCall.im_identity_ushort n k) [new]
  if r.status ≠ 0 then vips_lib_error
  return new

/-- The function `img_s_invertlut` (lines 146-158). -/
def img_s_invertlut (env : Env) (_obj input lut_size : VALUE) : Rb VALUE := do
  let new ← OutPartial
  let dmask ← Rb.convert (env.mask_arg2mask input)
  let n ← Rb.convert (env.NUM2INT lut_size)
  let r ← invoke env (LibCall.im_invertlut dmask n) [new]
  if r.status ≠ 0 then vips_lib_error
  return new

/-- The function `img_s_buildlut` (lines 190-202). -/
def img_s_buildlut (env : Env) (_obj input : VALUE) : Rb VALUE := do
  let new ← OutPartial
  let dmask ← Rb.convert (env.mask_arg2mask input)
  let r ← invoke env (LibCall.im_buildlut dmask) [new]
  if r.status ≠ 0 then vips_lib_error
  return new

/-- The function `img_project` (lines 215-226). -/
def img_project (env : Env) (obj : VALUE) : Rb VALUE := do
  let im ← GetImg obj
  let new ← OutImg obj
  let new2 ← OutImg obj
  let r ← invoke env (LibCall.im_project im) [new, new2]
  if r.status ≠ 0 then vips_lib_error
  return rb_ary_new3_2 new new2

/-- The function `img_maplut` (lines 306-317). -/
def img_maplut (env : Env) (obj obj2 : VALUE) : Rb VALUE := do
  let im ← GetImg obj
  let im2 ← GetImg obj2
  let new ← OutImg2 obj obj2
  let r ← invoke env (LibCall.im_maplut im im2) [new]
  if r.status ≠ 0 then vips_lib_error
  return new

/-- The function `img_monotonic_p` (lines 345-355). -/
def img_monotonic_p (env : Env) (obj : VALUE) : Rb VALUE := do
  let im ← GetImg obj
  let r ← invoke env (LibCall.im_ismonotonic im) []
  if r.status ≠ 0 then vips_lib_error
  return (if r.ret = 0 then VALUE.Qfalse else VALUE.Qtrue)

/-- The function `img_hist` (lines 365-380). -/
def img_hist (env : Env) (argv : List VALUE) (obj : VALUE) : Rb VALUE := do
  let im ← GetImg obj
  let new ← OutImg obj
  let v_bandno ← rb_scan_args_01 argv
  let bandno ← (if NIL_P v_bandno then Rb.pure (-1) else Rb.convert (env.NUM2INT v_bandno))
  let r ← invoke env (LibCall.im_hist im bandno) [new]
  if r.status ≠ 0 then vips_lib_error
  return new

/-- The function `img_gammacorrect` (lines 406-416). -/
def img_gammacorrect (env : Env) (obj exponent : VALUE) : Rb VALUE := do
  let im ← GetImg obj
  let new ← OutImg obj
  let e ← Rb.convert (env.NUM2DBL exponent)
  let r ← invoke env (LibCall.im_gammacorrect im e) [new]
  if r.status ≠ 0 then vips_lib_error
  return new

/-- The function `img_mpercent_hist` (lines 427-441): the body is compiled
only when `ATLEAST_VIPS(7, 22)` holds, otherwise the function is the single
raise. -/
def img_mpercent_hist (env : Env) (obj percent : VALUE) : Rb VALUE :=
  if ATLEAST_VIPS env 7 22 then do
    let im ← GetImg obj
    let p ← Rb.convert (env.NUM2DBL percent)
    let r ← invoke env (LibCall.im_mpercent_hist im p) []
    if r.status ≠ 0 then vips_lib_error
    return INT2NUM r.ret
  else
    rb_raise_eVIPSError unsupportedMsg

/-- The function `img_mpercent` (lines 456-466). -/
def img_mpercent (env : Env) (obj percent : VALUE) : Rb VALUE := do
  let im ← GetImg obj
  let p ← Rb.convert (env.NUM2DBL percent)
  let r ← invoke env (LibCall.im_mpercent im p) []
  if r.status ≠ 0 then vips_lib_error
  return INT2NUM r.ret

/-- The function `img_heq` (lines 476-491). -/
def img_heq (env : Env) (argv : List VALUE) (obj : VALUE) : Rb VALUE := do
  let im ← GetImg obj
  let new ← OutImg obj
  let v_bandno ← rb_scan_args_01 argv
  let bandno ← (if NIL_P v_bandno then Rb.pure (-1) else Rb.convert (env.NUM2INT v_bandno))
  let r ← invoke env (LibCall.im_heq im bandno) [new]
  if r.status ≠ 0 then vips_lib_error
  return new

/-- The function `img_lhisteq` (lines 505-515). -/
def img_lhisteq (env : Env) (obj xwin ywin : VALUE) : Rb VALUE := do
  let im ← GetImg obj
  let new ← OutImg obj
  let x ← Rb.convert (env.NUM2INT xwin)
  let y ← Rb.convert (env.NUM2INT ywin)
  let r ← invoke env (LibCall.im_lhisteq im x y) [new]
  if r.status ≠ 0 then vips_lib_error
  return new

/-- The function `img_stdif` (lines 548-561). -/
def img_stdif (env : Env) (obj a m0 b s0 xwin ywin : VALUE) : Rb VALUE := do
  let im ← GetImg obj
  let new ← OutImg obj
  let ca ← Rb.convert (env.NUM2DBL a)
  let cm0 ← Rb.convert (env.NUM2DBL m0)
  let cb ← Rb.convert (env.NUM2DBL b)
  let cs0 ← Rb.convert (env.NUM2DBL s0)
  let x ← Rb.convert (env.NUM2INT xwin)
  let y ← Rb.convert (env.NUM2INT ywin)
  let r ← invoke env (LibCall.im_stdif im ca cm0 cb cs0 x y) [new]
  if r.status ≠ 0 then vips_lib_error
  return new

/-- The function `img_s_tone_build_range` (lines 579-593). -/
def img_s_tone_build_range (env : Env) (_obj in_max out_max lb lw ps pm ph s m h : VALUE) :
    Rb VALUE := do
  let new ← OutPartial
  let cin ← Rb.convert (env.NUM2DBL in_max)
  let cout ← Rb.convert (env.NUM2DBL out_max)
  let clb ← Rb.convert (env.NUM2DBL lb)
  let clw ← Rb.convert (env.NUM2DBL lw)
  let cps ← Rb.convert (env.NUM2DBL ps)
  let cpm ← Rb.convert (env.NUM2DBL pm)
  let cph ← Rb.convert (env.NUM2DBL ph)
  let cs ← Rb.convert (env.NUM2DBL s)
  let cm ← Rb.convert (env.NUM2DBL m)
  let ch ← Rb.convert (env.NUM2DBL h)
  let r ← invoke env (LibCall.im_tone_build_range cin cout clb clw cps cpm cph cs cm ch) [new]
  if r.status ≠ 0 then vips_lib_error
  return new

/-- The function `img_s_tone_build` (lines 604-616). -/
def img_s_tone_build (env : Env) (_obj lb lw ps pm ph s m h : VALUE) : Rb VALUE := do
  let new ← OutPartial
  let clb ← Rb.convert (env.NUM2DBL lb)
  let clw ← Rb.convert (env.NUM2DBL lw)
  let cps ← Rb.convert (env.NUM2DBL ps)
  let cpm ← Rb.convert (env.NUM2DBL pm)
  let cph ← Rb.convert (env.NUM2DBL ph)
  let cs ← Rb.convert (env.NUM2DBL s)
  let cm ← Rb.convert (env.NUM2DBL m)
  let ch ← Rb.convert (env.NUM2DBL h)
  let r ← invoke env (LibCall.im_tone_build clb clw cps cpm cph cs cm ch) [new]
  if r.status ≠ 0 then vips_lib_error
  return new

/-- The function `img_tone_analyse` (lines 626-643): the body is compiled only
when `ATLEAST_VIPS(7, 23)` holds, otherwise the function is the single
raise. -/
def img_tone_analyse (env : Env) (obj ps pm ph s m h : VALUE) : Rb VALUE :=
  if ATLEAST_VIPS env 7 23 then do
    let im ← GetImg obj
    let new ← OutImg obj
    let cps ← Rb.convert (env.NUM2DBL ps)
    let cpm ← Rb.convert (env.NUM2DBL pm)
    let cph ← Rb.convert (env.NUM2DBL ph)
    let cs ← Rb.convert (env.NUM2DBL s)
    let cm ← Rb.convert (env.NUM2DBL m)
    let ch ← Rb.convert (env.NUM2DBL h)
    let r ← invoke env (LibCall.im_tone_analyse im cps cpm cph cs cm ch) [new]
    if r.status ≠ 0 then vips_lib_error
    return new
  else
    rb_raise_eVIPSError unsupportedMsg

/-- The instance methods and class methods of `image_histograms_lut.c` whose
bodies are written out in the file, each with its Ruby arguments. -/
inductive HistOp where
  | histgr (argv : List VALUE)
  | histnd (bins : VALUE)
  | identity (bands : VALUE)
  | identity_ushort (bands sz : VALUE)
  | invertlut (input lut_size : VALUE)
  | buildlut (input : VALUE)
  | project
  | maplut (obj2 : VALUE)
  | monotonic_p
  | hist (argv : List VALUE)
  | gammacorrect (exponent : VALUE)
  | mpercent (percent : VALUE)
  | mpercent_hist (percent : VALUE)
  | heq (argv : List VALUE)
  | lhisteq (xwin ywin : VALUE)
  | stdif (a m0 b s0 xwin ywin : VALUE)
  | tone_build_range (in_max out_max lb lw ps pm ph s m h : VALUE)
  | tone_build (lb lw ps pm ph s m h : VALUE)
  | tone_analyse (ps pm ph s m h : VALUE)

/-- Method dispatch: the C function behind each operation, applied to the
receiver `obj`. -/
def HistOp.run (env : Env) (obj : VALUE) : HistOp → Rb VALUE
  | HistOp.histgr argv => img_histgr env argv obj
  | HistOp.histnd bins => img_histnd env obj bins
  | HistOp.identity bands => img_s_identity env obj bands
  | HistOp.identity_ushort bands sz => img_s_identity_ushort env obj bands sz
  | HistOp.invertlut input lut_size => img_s_invertlut env obj input lut_size
  | HistOp.buildlut input => img_s_buildlut env obj input
  | HistOp.project => img_project env obj
  | HistOp.maplut obj2 => img_maplut env obj obj2
  | HistOp.monotonic_p => img_monotonic_p env obj
  | HistOp.hist argv => img_hist env argv obj
  | HistOp.gammacorrect exponent => img_gammacorrect env obj exponent
  | HistOp.mpercent percent => img_mpercent env obj percent
  | HistOp.mpercent_hist percent => img_mpercent_hist env obj percent
  | HistOp.heq argv => img_heq env argv obj
  | HistOp.lhisteq xwin ywin => img_lhisteq env obj xwin ywin
  | HistOp.stdif a m0 b s0 xwin ywin => img_stdif env obj a m0 b s0 xwin ywin
  | HistOp.tone_build_range in_max out_max lb lw ps pm ph s m h =>
      img_s_tone_build_range env obj in_max out_max lb lw ps pm ph s m h
  | HistOp.tone_build lb lw ps pm ph s m h => img_s_tone_build env obj lb lw ps pm ph s m h
  | HistOp.tone_analyse ps pm ph s m h => img_tone_analyse env obj ps pm ph s m h

/-! ## The accessors of `header.c` -/

/-- The function `header_x_size` (lines 48-57). -/
def header_x_size (obj : VALUE) : Rb VALUE := do
  let im ← GetImg obj
  match im with
  | some im => return INT2FIX im.Xsize
  | none => return VALUE.Qnil

/-- The function `header_y_size` (lines 59-68). -/
def header_y_size (obj : VALUE) : Rb VALUE := do
  let im ← GetImg obj
  match im with
  | some im => return INT2FIX im.Ysize
  | none => return VALUE.Qnil

/-- The function `header_bands` (lines 70-79). -/
def header_bands (obj : VALUE) : Rb VALUE := do
  let im ← GetImg obj
  match im with
  | some im => return INT2FIX im.Bands
  | none => return VALUE.Qnil

/-- The function `header_band_fmt` (lines 81-90); `ids` are the statics of the
file. -/
def header_band_fmt (ids : HeaderIds) (obj : VALUE) : Rb VALUE := do
  let im ← GetImg obj
  match im with
  | some im => return ID2SYM (header_band_fmt_to_id ids im.BandFmt)
  | none => return VALUE.Qnil

/-- The function `header_x_res` (lines 92-101). -/
def header_x_res (obj : VALUE) : Rb VALUE := do
  let im ← GetImg obj
  match im with
  | some im => return rb_float_new im.Xres
  | none => return VALUE.Qnil

/-- The function `header_y_res` (lines 103-112). -/
def header_y_res (obj : VALUE) : Rb VALUE := do
  let im ← GetImg obj
  match im with
  | some im => return rb_float_new im.Yres
  | none => return VALUE.Qnil

/-- The function `header_x_offset` (lines 114-123). -/
def header_x_offset (obj : VALUE) : Rb VALUE := do
  let im ← GetImg obj
  match im with
  | some im => return INT2FIX im.Xoffset
  | none => return VALUE.Qnil

/-- The function `header_y_offset` (lines 125-134). -/
def header_y_offset (obj : VALUE) : Rb VALUE := do
  let im ← GetImg obj
  match im with
  | some im => return INT2FIX im.Yoffset
  | none => return VALUE.Qnil

/-- The function `header_meta_get` (lines 182-194). -/
def header_meta_get (env : Env) (obj : VALUE) (name : String) : Rb VALUE := do
  let im ← GetImg obj
  let r ← invoke env (LibCall.im_meta_get_blob im name) []
  if r.status ≠ 0 then
    return VALUE.Qnil
  else
    return rb_tainted_str_new r.buf r.len

/-- The function `header_meta_p` (lines 196-205); the routine's return value
is the type code of the field, zero when there is none. -/
def header_meta_p (env : Env) (obj : VALUE) (name : String) : Rb VALUE := do
  let im ← GetImg obj
  let r ← invoke env (LibCall.im_header_get_typeof im name) []
  if r.status ≠ 0 then
    return VALUE.Qtrue
  else
    return VALUE.Qfalse

/-- The function `header_exif` (lines 207-211). -/
def header_exif (env : Env) (obj : VALUE) : Rb VALUE :=
  header_meta_get env obj env.IM_META_EXIF_NAME

/-- The function `header_exif_p` (lines 213-217). -/
def header_exif_p (env : Env) (obj : VALUE) : Rb VALUE :=
  header_meta_p env obj env.IM_META_EXIF_NAME

/-- The function `header_icc` (lines 219-223). -/
def header_icc (env : Env) (obj : VALUE) : Rb VALUE :=
  header_meta_get env obj env.IM_META_ICC_NAME

/-- The function `header_icc_p` (lines 225-229). -/
def header_icc_p (env : Env) (obj : VALUE) : Rb VALUE :=
  header_meta_p env obj env.IM_META_ICC_NAME

/-! ## The monotonicity test, as the spec words it -/

/-- Modelled from the spec: one direction of the scan of `monotonic(image)`:
every value is at most its successor. -/
def nonDecreasing : List Int → Bool
  | a :: b :: rest => decide (a ≤ b) && nonDecreasing (b :: rest)
  | _ => true

/-- Modelled from the spec: the other direction of the scan: every value is at
least its successor. -/
def nonIncreasing : List Int → Bool
  | a :: b :: rest => decide (b ≤ a) && nonIncreasing (b :: rest)
  | _ => true

/-- Modelled from the spec: `monotonic(image)` "returns true iff, scanning the
1-D sequence of values, it is non-decreasing or non-increasing throughout
(both directions checked; either qualifies)".  The routine that computes it,
`im_ismonotonic`, is the library's and not under `src/`. -/
def monotonic (vals : List Int) : Bool :=
  nonDecreasing vals || nonIncreasing vals

/-- Modelled from the spec: an environment whose `im_ismonotonic` does what
the spec says of `monotonic(image)`: on every raster it succeeds and sets its
flag exactly when the scan of the samples finds them monotonic. -/
def MonotonicAsSpecified (env : Env) : Prop :=
  ∀ im : IMAGE,
    (env.lib (LibCall.im_ismonotonic (some im))).status = 0 ∧
    ((env.lib (LibCall.im_ismonotonic (some im))).ret ≠ 0 ↔ monotonic im.samples = true)

/-! ## A concrete environment for worked examples -/

/-- A reply that reports success and carries nothing. -/
def okReply : LibReply :=
  { status := 0, outs := [], ret := 0, buf := [], len := 0, diag := "" }

/-- A stand-in library: the monotonicity test follows the spec, the projection
writes two rasters of the shapes the spec gives, a null input fails the
threshold query, and every other call succeeds and writes one fresh raster. -/
def sampleLib : LibCall → LibReply
  | LibCall.im_ismonotonic (some im) =>
      { okReply with ret := if monotonic im.samples then 255 else 0 }
  | LibCall.im_project (some im) =>
      { okReply with outs := [{ im with Xsize := 1, samples := [] },
                              { im with Ysize := 1, samples := [] }] }
  | LibCall.im_mpercent none _ =>
      { okReply with status := -1, diag := "im_mpercent: null image" }
  | LibCall.im_mpercent (some im) _ => { okReply with ret := im.samples.headD 0 }
  | _ => { okReply with outs := [freshImage] }

/-- A stand-in for Ruby's `NUM2INT`: Integers that fit a C int convert to
themselves, larger ones raise `RangeError`, anything else `TypeError`. -/
def sampleNUM2INT : VALUE → Except RubyExn Int
  | VALUE.integer n =>
      if -2147483648 ≤ n ∧ n ≤ 2147483647 then Except.ok n
      else Except.error ⟨"RangeError", "integer too big to convert to int"⟩
  | _ => Except.error ⟨"TypeError", "no implicit conversion to integer"⟩

/-- A stand-in for Ruby's `NUM2DBL`: Floats convert to themselves, anything
else raises `TypeError`. -/
def sampleNUM2DBL : VALUE → Except RubyExn CDouble
  | VALUE.float x => Except.ok x
  | _ => Except.error ⟨"TypeError", "no implicit conversion to float"⟩

/-- A stand-in for the mask converter: nothing converts. -/
def sampleMask (_ : VALUE) : Except RubyExn DOUBLEMASK :=
  Except.error ⟨"TypeError", "not a mask"⟩

/-- A concrete environment, compiled against VIPS `major.minor`. -/
def sampleEnv (major minor : Nat) : Env :=
  { IM_MAJOR_VERSION := major, IM_MINOR_VERSION := minor,
    NUM2INT := sampleNUM2INT, NUM2DBL := sampleNUM2DBL, mask_arg2mask := sampleMask,
    IM_META_EXIF_NAME := "exif-data", IM_META_ICC_NAME := "icc-profile-data",
    lib := sampleLib }

/-- A raster of one row holding the given samples. -/
def rowImage (vals : List Int) : IMAGE :=
  { freshImage with Xsize := vals.length, Ysize := 1, Bands := 1,
                    BandFmt := IM_BANDFMT_INT, samples := vals }

/-- A world with two image objects: object 0 holds the row `vals`, object 1
has no raster. -/
def sampleWorld (vals : List Int) : World :=
  { objs := [⟨some (rowImage vals)⟩, ⟨none⟩], calls := [], errbuf := "" }

/-- A concrete environment whose library knows one metadata field: the EXIF
blob is the four bytes "Exif" at the head of a six-byte buffer, with type code
1; no other field exists. -/
def metaEnv : Env :=
  { sampleEnv 7 22 with
    lib := fun c =>
      match c with
      | LibCall.im_meta_get_blob _ name =>
          if name = "exif-data" then
            { okReply with buf := [69, 120, 105, 102, 0, 0], len := 4 }
          else { okReply with status := -1, diag := "field not found" }
      | LibCall.im_header_get_typeof _ name =>
          if name = "exif-data" then { okReply with status := 1 } else okReply
      | _ => sampleLib c }

/-! ## Vocabulary for the statements -/

/-- The outcome is a raise by `vips_lib_error`. -/
def isLibError {α : Type} : Except Exn α → Bool
  | Except.error (Exn.lib_error _) => true
  | _ => false

/-- The outcome is a normal return. -/
def isReturn {α : Type} : Except Exn α → Bool
  | Except.ok _ => true
  | _ => false

/-- The name of the routine a call goes to. -/
def LibCall.routine : LibCall → String
  | LibCall.im_histgr _ _ => "im_histgr"
  | LibCall.im_histnD _ _ => "im_histnD"
  | LibCall.im_identity _ => "im_identity"
  | LibCall.im_identity_ushort _ _ => "im_identity_ushort"
  | LibCall.im_invertlut _ _ => "im_invertlut"
  | LibCall.im_buildlut _ => "im_buildlut"
  | LibCall.im_project _ => "im_project"
  | LibCall.im_maplut _ _ => "im_maplut"
  | LibCall.im_ismonotonic _ => "im_ismonotonic"
  | LibCall.im_hist _ _ => "im_hist"
  | LibCall.im_gammacorrect _ _ => "im_gammacorrect"
  | LibCall.im_mpercent_hist _ _ => "im_mpercent_hist"
  | LibCall.im_mpercent _ _ => "im_mpercent"
  | LibCall.im_heq _ _ => "im_heq"
  | LibCall.im_lhisteq _ _ _ => "im_lhisteq"
  | LibCall.im_stdif _ _ _ _ _ _ _ => "im_stdif"
  | LibCall.im_tone_build_range _ _ _ _ _ _ _ _ _ _ => "im_tone_build_range"
  | LibCall.im_tone_build _ _ _ _ _ _ _ _ => "im_tone_build"
  | LibCall.im_tone_analyse _ _ _ _ _ _ _ => "im_tone_analyse"
  | LibCall.im_meta_get_blob _ _ => "im_meta_get_blob"
  | LibCall.im_header_get_typeof _ _ => "im_header_get_typeof"

/-- The routine each operation is a wrapper of. -/
def HistOp.routine : HistOp → String
  | HistOp.histgr _ => "im_histgr"
  | HistOp.histnd _ => "im_histnD"
  | HistOp.identity _ => "im_identity"
  | HistOp.identity_ushort _ _ => "im_identity_ushort"
  | HistOp.invertlut _ _ => "im_invertlut"
  | HistOp.buildlut _ => "im_buildlut"
  | HistOp.project => "im_project"
  | HistOp.maplut _ => "im_maplut"
  | HistOp.monotonic_p => "im_ismonotonic"
  | HistOp.hist _ => "im_hist"
  | HistOp.gammacorrect _ => "im_gammacorrect"
  | HistOp.mpercent _ => "im_mpercent"
  | HistOp.mpercent_hist _ => "im_mpercent_hist"
  | HistOp.heq _ => "im_heq"
  | HistOp.lhisteq _ _ => "im_lhisteq"
  | HistOp.stdif _ _ _ _ _ _ => "im_stdif"
  | HistOp.tone_build_range _ _ _ _ _ _ _ _ _ _ => "im_tone_build_range"
  | HistOp.tone_build _ _ _ _ _ _ _ _ => "im_tone_build"
  | HistOp.tone_analyse _ _ _ _ _ _ => "im_tone_analyse"

/-- A computation that never calls the library and never raises through
`vips_lib_error`. -/
def Quiet {α : Type} (m : Rb α) : Prop :=
  ∀ w, (m w).2.calls = w.calls ∧ isLibError (m w).1 = false

/-- A computation that reports the status of its routine faithfully. -/
def Faithful {α : Type} (env : Env) (name : String) (m : Rb α) : Prop :=
  ∀ w,
    (isLibError (m w).1 = true ↔
      ∃ c, (m w).2.calls = w.calls ++ [c] ∧ c.routine = name ∧ (env.lib c).status ≠ 0) ∧
    (isReturn (m w).1 = true ↔
      ∃ c, (m w).2.calls = w.calls ++ [c] ∧ c.routine = name ∧ (env.lib c).status = 0)

/-- A computation that never raises through `rb_raise(eVIPSError, ...)`. -/
def NoGateRaise {α : Type} (m : Rb α) : Prop :=
  ∀ w msg, (m w).1 ≠ Except.error (Exn.eVIPSError msg)

/-- The value an operation returns when its routine succeeds, in a call that
started with `n` objects in the store: the new image is the object this call
allocated first, `project` returns the two objects it allocated as an array,
`monotonic?` the truth value of the routine's flag, and the two percentile
queries the routine's number. -/
def HistOp.result (n : Nat) (r : LibReply) : HistOp → VALUE
  | HistOp.project => VALUE.array [VALUE.object n, VALUE.object (n + 1)]
  | HistOp.monotonic_p => if r.ret = 0 then VALUE.Qfalse else VALUE.Qtrue
  | HistOp.mpercent _ => VALUE.integer r.ret
  | HistOp.mpercent_hist _ => VALUE.integer r.ret
  | _ => VALUE.object n

/-- A computation that leaves the world as it found it. -/
def Reads {α : Type} (m : Rb α) : Prop :=
  ∀ w, (m w).2 = w

/-- A computation whose every return comes from one successful call of the
routine `name` and carries the value `res` gives for the size of the object
store at the start and the routine's reply. -/
def Pinned (env : Env) (name : String) (res : Nat → LibReply → VALUE) (m : Rb VALUE) : Prop :=
  ∀ w v, (m w).1 = Except.ok v →
    ∃ c, (m w).2.calls = w.calls ++ [c] ∧ c.routine = name ∧ (env.lib c).status = 0 ∧
      v = res w.objs.length (env.lib c)

/-- The world after one more image object has been allocated. -/
def withFresh (w : World) : World :=
  { w with objs := w.objs ++ [⟨some freshImage⟩] }

/-- Calling routine `c` from world `w` with output objects `outs`: the call is
logged, the rasters the routine wrote are stored in `outs`, its diagnostic is
appended to the error buffer, and the outcome is the value `v` of the reply
when the status is zero and a library error with the buffer's text when it is
not. -/
def afterCall (env : Env) (c : LibCall) (outs : List VALUE) (v : LibReply → VALUE)
    (w : World) : Except Exn VALUE × World :=
  (if (env.lib c).status = 0 then Except.ok (v (env.lib c))
   else Except.error (Exn.lib_error (w.errbuf ++ (env.lib c).diag)),
   { objs := writeOuts w.objs outs (env.lib c).outs,
     calls := w.calls ++ [c],
     errbuf := w.errbuf ++ (env.lib c).diag })

/-! ## Theorems: band formats and symbols -/

theorem sampleIntern_injective : Function.Injective sampleIntern := by
  intro a b h
  have h1 := Encodable.encode_injective h
  have hc : Function.Injective Char.toNat := by
    intro x y hxy
    apply Char.ext
    apply UInt32.ext
    exact hxy
  exact String.ext (List.map_injective_iff.mpr hc h1)

theorem init_header_all (rb_intern : String → ID) :
    (init_header rb_intern).all = bandFmtNames.map rb_intern := rfl

theorem fmt_of_id_of_fmt (rb_intern : String → ID) (hinj : Function.Injective rb_intern)
    (f : VipsBandFmt) (hf : f ∈ bandFmts) :
    header_id_to_band_fmt (init_header rb_intern)
      (header_band_fmt_to_id (init_header rb_intern) f) = f := by
  simp only [bandFmts, List.mem_cons, List.mem_singleton, List.not_mem_nil, or_false] at hf
  rcases hf with h | h | h | h | h | h | h | h | h | h | h <;> subst h <;>
    simp [header_band_fmt_to_id, header_id_to_band_fmt, init_header, hinj.eq_iff,
      IM_BANDFMT_NOTSET, IM_BANDFMT_UCHAR, IM_BANDFMT_CHAR, IM_BANDFMT_USHORT,
      IM_BANDFMT_SHORT, IM_BANDFMT_UINT, IM_BANDFMT_INT, IM_BANDFMT_FLOAT,
      IM_BANDFMT_COMPLEX, IM_BANDFMT_DOUBLE, IM_BANDFMT_DPCOMPLEX]

theorem id_of_fmt_of_id (rb_intern : String → ID) (hinj : Function.Injective rb_intern)
    (s : String) (hs : s ∈ bandFmtNames) :
    header_band_fmt_to_id (init_header rb_intern)
      (header_id_to_band_fmt (init_header rb_intern) (rb_intern s)) = rb_intern s := by
  simp only [bandFmtNames, List.mem_cons, List.mem_singleton, List.not_mem_nil, or_false] at hs
  rcases hs with h | h | h | h | h | h | h | h | h | h | h <;> subst h <;>
    simp [header_band_fmt_to_id, header_id_to_band_fmt, init_header, hinj.eq_iff,
      IM_BANDFMT_NOTSET, IM_BANDFMT_UCHAR, IM_BANDFMT_CHAR, IM_BANDFMT_USHORT,
      IM_BANDFMT_SHORT, IM_BANDFMT_UINT, IM_BANDFMT_INT, IM_BANDFMT_FLOAT,
      IM_BANDFMT_COMPLEX, IM_BANDFMT_DOUBLE, IM_BANDFMT_DPCOMPLEX]

theorem ite_elim {α : Type} (P : α → Prop) (c : Prop) [Decidable c] (a b : α)
    (ha : P a) (hb : P b) : P (if c then a else b) := by
  split <;> assumption

theorem fmt_of_id_mem (ids : HeaderIds) (rb : ID) :
    header_id_to_band_fmt ids rb ∈ bandFmts := by
  unfold header_id_to_band_fmt
  repeat (apply ite_elim (fun x => x ∈ bandFmts) _ _ _ (by decide))
  decide

theorem id_of_fmt_mem (ids : HeaderIds) (f : VipsBandFmt) :
    header_band_fmt_to_id ids f ∈ ids.all := by
  unfold header_band_fmt_to_id
  repeat (apply ite_elim (fun x => x ∈ ids.all) _ _ _ (by simp [HeaderIds.all]))
  simp [HeaderIds.all]

theorem id_of_fmt_outside (ids : HeaderIds) (f : VipsBandFmt) (hf : f ∉ bandFmts) :
    header_band_fmt_to_id ids f = ids.id_notset := by
  simp only [bandFmts, List.mem_cons, List.mem_singleton, List.not_mem_nil, or_false,
    not_or] at hf
  simp [header_band_fmt_to_id, hf]

theorem fmt_of_id_outside (rb_intern : String → ID) (hinj : Function.Injective rb_intern)
    (s : String) (hs : s ∉ bandFmtNames) :
    header_id_to_band_fmt (init_header rb_intern) (rb_intern s) = NULL_as_VipsBandFmt := by
  simp only [bandFmtNames, List.mem_cons, List.mem_singleton, List.not_mem_nil, or_false,
    not_or] at hs
  simp [header_id_to_band_fmt, init_header, hinj.eq_iff, hs]

/-- C1. Once `init_header` has interned the names, converting any of the eleven
enumerated band formats to its symbol and back returns the same format. -/
theorem band_fmt_symbol_roundtrip (rb_intern : String → ID)
    (hinj : Function.Injective rb_intern) (f : VipsBandFmt) (hf : f ∈ bandFmts) :
    header_id_to_band_fmt (init_header rb_intern)
      (header_band_fmt_to_id (init_header rb_intern) f) = f :=
  fmt_of_id_of_fmt rb_intern hinj f hf

theorem band_fmt_symbol_roundtrip_witness :
    header_id_to_band_fmt (init_header sampleIntern)
      (header_band_fmt_to_id (init_header sampleIntern) IM_BANDFMT_DPCOMPLEX)
      = IM_BANDFMT_DPCOMPLEX :=
  band_fmt_symbol_roundtrip sampleIntern sampleIntern_injective IM_BANDFMT_DPCOMPLEX
    (by decide)

/-- C2. Once `init_header` has interned the names, converting the symbol of any
of the eleven names to its tag and back returns the same symbol; the two
conversions are inverse to each other between the eleven symbols and the
eleven tags, and each is a bijection between them. -/
theorem symbol_band_fmt_roundtrip (rb_intern : String → ID)
    (hinj : Function.Injective rb_intern) (s : String) (hs : s ∈ bandFmtNames) :
    header_band_fmt_to_id (init_header rb_intern)
      (header_id_to_band_fmt (init_header rb_intern) (rb_intern s)) = rb_intern s ∧
    Set.InvOn (header_band_fmt_to_id (init_header rb_intern))
      (header_id_to_band_fmt (init_header rb_intern))
      {i | i ∈ (init_header rb_intern).all} {f | f ∈ bandFmts} ∧
    Set.BijOn (header_id_to_band_fmt (init_header rb_intern))
      {i | i ∈ (init_header rb_intern).all} {f | f ∈ bandFmts} ∧
    Set.BijOn (header_band_fmt_to_id (init_header rb_intern))
      {f | f ∈ bandFmts} {i | i ∈ (init_header rb_intern).all} := by
  have hinv : Set.InvOn (header_band_fmt_to_id (init_header rb_intern))
      (header_id_to_band_fmt (init_header rb_intern))
      {i | i ∈ (init_header rb_intern).all} {f | f ∈ bandFmts} := by
    constructor
    · intro i hi
      simp only [Set.mem_setOf_eq, init_header_all, List.mem_map] at hi
      obtain ⟨t, ht, rfl⟩ := hi
      exact id_of_fmt_of_id rb_intern hinj t ht
    · intro f hf
      exact fmt_of_id_of_fmt rb_intern hinj f hf
  have hmaps1 : Set.MapsTo (header_id_to_band_fmt (init_header rb_intern))
      {i | i ∈ (init_header rb_intern).all} {f | f ∈ bandFmts} :=
    fun i _ => fmt_of_id_mem _ i
  have hmaps2 : Set.MapsTo (header_band_fmt_to_id (init_header rb_intern))
      {f | f ∈ bandFmts} {i | i ∈ (init_header rb_intern).all} :=
    fun f _ => id_of_fmt_mem _ f
  exact ⟨id_of_fmt_of_id rb_intern hinj s hs, hinv,
    hinv.bijOn hmaps1 hmaps2, hinv.symm.bijOn hmaps2 hmaps1⟩

theorem symbol_band_fmt_roundtrip_witness :
    header_band_fmt_to_id (init_header sampleIntern)
      (header_id_to_band_fmt (init_header sampleIntern) (sampleIntern "DBCOMPLEX"))
      = sampleIntern "DBCOMPLEX" :=
  (symbol_band_fmt_roundtrip sampleIntern sampleIntern_injective "DBCOMPLEX" (by decide)).1

/-- C3. The conversion `header_band_fmt_to_id` answers for every tag value:
the answer is always one of the eleven interned symbols, and for a tag that is
not one of the eleven enumerated formats it is the symbol NOTSET. -/
theorem band_fmt_to_id_total (rb_intern : String → ID) (f : VipsBandFmt) :
    header_band_fmt_to_id (init_header rb_intern) f ∈ (init_header rb_intern).all ∧
    (f ∉ bandFmts →
      header_band_fmt_to_id (init_header rb_intern) f = rb_intern "NOTSET") :=
  ⟨id_of_fmt_mem _ f, fun hf => id_of_fmt_outside _ f hf⟩

theorem band_fmt_to_id_total_witness :
    header_band_fmt_to_id (init_header sampleIntern) 42 = sampleIntern "NOTSET" :=
  (band_fmt_to_id_total sampleIntern 42).2 (by decide)

/-- C4, what the code does. For a symbol whose name is not one of the eleven
interned names, `header_id_to_band_fmt` returns the null pointer converted to
the enum, which is the tag of unsigned 8-bit samples and not the unset tag it
returns for the symbol NOTSET. -/
theorem id_to_band_fmt_unknown_is_uchar (rb_intern : String → ID)
    (hinj : Function.Injective rb_intern) (s : String) (hs : s ∉ bandFmtNames) :
    header_id_to_band_fmt (init_header rb_intern) (rb_intern s) = IM_BANDFMT_UCHAR ∧
    header_id_to_band_fmt (init_header rb_intern) (rb_intern s) ≠ IM_BANDFMT_NOTSET ∧
    header_id_to_band_fmt (init_header rb_intern) (rb_intern s) ≠
      header_id_to_band_fmt (init_header rb_intern) (rb_intern "NOTSET") := by
  have h := fmt_of_id_outside rb_intern hinj s hs
  have h2 : header_id_to_band_fmt (init_header rb_intern) (rb_intern "NOTSET")
      = IM_BANDFMT_NOTSET := by
    simp [header_id_to_band_fmt, init_header]
  rw [h2, h]
  decide

theorem id_to_band_fmt_unknown_is_uchar_witness :
    header_id_to_band_fmt (init_header sampleIntern) (sampleIntern "FOO") = IM_BANDFMT_UCHAR ∧
    header_id_to_band_fmt (init_header sampleIntern) (sampleIntern "FOO") ≠ IM_BANDFMT_NOTSET :=
  ⟨(id_to_band_fmt_unknown_is_uchar sampleIntern sampleIntern_injective "FOO" (by decide)).1,
   (id_to_band_fmt_unknown_is_uchar sampleIntern sampleIntern_injective "FOO" (by decide)).2.1⟩

/-! ## Lemmas about running wrapper bodies -/

theorem bind_apply {α β : Type} (m : Rb α) (f : α → Rb β) (w : World) :
    (m >>= f) w = match m w with
      | (Except.ok a, w1) => f a w1
      | (Except.error e, w1) => (Except.error e, w1) := rfl

theorem pure_apply {α : Type} (a : α) (w : World) :
    (pure a : Rb α) w = (Except.ok a, w) := rfl

theorem quiet_GetImg (obj : VALUE) : Quiet (GetImg obj) := by
  intro w
  unfold GetImg
  cases obj <;> simp [isLibError]
  split <;> simp

theorem quiet_allocImg : Quiet allocImg := by
  intro w
  simp [allocImg, isLibError]

theorem quiet_scan (argv : List VALUE) : Quiet (rb_scan_args_01 argv) := by
  intro w
  unfold rb_scan_args_01
  split <;> simp [Rb.pure, Rb.raise, isLibError]

theorem quiet_convert {α : Type} (r : Except RubyExn α) : Quiet (Rb.convert r) := by
  intro w
  cases r <;> simp [Rb.convert, Rb.pure, Rb.raise, isLibError]

theorem quiet_pure {α : Type} (a : α) : Quiet (Rb.pure a) := by
  intro w
  simp [Rb.pure, isLibError]

theorem quiet_ite {α : Type} (c : Prop) [Decidable c] (a b : Rb α)
    (ha : Quiet a) (hb : Quiet b) : Quiet (if c then a else b) := by
  split
  · exact ha
  · exact hb

theorem faithful_bind {α β : Type} (env : Env) (name : String) (m : Rb α) (f : α → Rb β)
    (hm : Quiet m) (hf : ∀ a, Faithful env name (f a)) : Faithful env name (m >>= f) := by
  intro w
  rw [bind_apply]
  have h := hm w
  rcases hmw : m w with ⟨r, w1⟩
  rw [hmw] at h
  simp only at h
  cases r with
  | ok a =>
    simp only
    have h2 := hf a w1
    rw [h.1] at h2
    exact h2
  | error e =>
    have h3 : isLibError (Except.error e : Except Exn β) = false := by
      cases e <;> simp_all [isLibError]
    simp [h.1, h3, isReturn]

theorem faithful_invoke {α : Type} (env : Env) (name : String) (c : LibCall)
    (outs : List VALUE) (v : LibReply → α) (hc : c.routine = name) :
    Faithful env name (invoke env c outs >>= fun r =>
      if r.status ≠ 0 then (vips_lib_error : Rb PUnit) >>= fun _ => pure (v r)
      else pure PUnit.unit >>= fun _ => pure (v r)) := by
  intro w
  simp only [bind_apply, invoke]
  by_cases hs : (env.lib c).status = 0
  · simp [hs, bind_apply, pure_apply, isLibError, isReturn, hc]
  · simp [hs, bind_apply, vips_lib_error, isLibError, isReturn, hc]

theorem faithful_gate {α : Type} (env : Env) (name : String) (b : Bool) (m : Rb α)
    (msg : String) (hm : Faithful env name m) :
    Faithful env name (if b = true then m else rb_raise_eVIPSError msg) := by
  cases b
  · intro w
    simp [rb_raise_eVIPSError, Rb.raise, isLibError, isReturn]
  · simpa using hm

theorem run_faithful (env : Env) (obj : VALUE) (op : HistOp) :
    Faithful env op.routine (op.run env obj) := by
  cases op <;>
  simp only [HistOp.run, HistOp.routine, img_histgr, img_histnd, img_s_identity,
    img_s_identity_ushort, img_s_invertlut, img_s_buildlut, img_project, img_maplut,
    img_monotonic_p, img_hist, img_gammacorrect, img_mpercent, img_mpercent_hist, img_heq,
    img_lhisteq, img_stdif, img_s_tone_build_range, img_s_tone_build, img_tone_analyse,
    OutImg, OutImg2, OutPartial] <;>
  repeat (first
    | exact faithful_invoke _ _ _ _ _ rfl
    | apply faithful_gate
    | (apply faithful_bind _ _ _ _
        (by first
          | exact quiet_GetImg _
          | exact quiet_allocImg
          | exact quiet_scan _
          | exact quiet_convert _
          | exact quiet_ite _ _ _ (quiet_pure _) (quiet_convert _))
       intro _))

theorem GetImg_object (w : World) (ref : Nat) (data : vipsImg)
    (h : w.objs[ref]? = some data) :
    GetImg (VALUE.object ref) w = (Except.ok data.im, w) := by
  simp [GetImg, h]

/-- C9. When the library's projection routine succeeds on the receiver's
raster, `project` returns an array of exactly two image objects, both created
by this call (their references were free before it) and neither of them the
receiver; the routine was called once on the receiver's raster, and what it
wrote to its first and second output is what the first and second returned
object hold, in this order. -/
theorem project_returns_fresh_pair (env : Env) (w : World) (ref : Nat) (data : vipsImg)
    (hobj : w.objs[ref]? = some data)
    (hok : (env.lib (LibCall.im_project data.im)).status = 0) :
    (img_project env (VALUE.object ref) w).1 =
      Except.ok (VALUE.array [VALUE.object w.objs.length, VALUE.object (w.objs.length + 1)]) ∧
    w.objs[w.objs.length]? = none ∧ w.objs[w.objs.length + 1]? = none ∧
    ref ≠ w.objs.length ∧ ref ≠ w.objs.length + 1 ∧
    (img_project env (VALUE.object ref) w).2.calls = w.calls ++ [LibCall.im_project data.im] ∧
    (∀ hout vout rest, (env.lib (LibCall.im_project data.im)).outs = hout :: vout :: rest →
      (img_project env (VALUE.object ref) w).2.objs = w.objs ++ [⟨some hout⟩, ⟨some vout⟩]) := by
  have hlt : ref < w.objs.length := by
    rcases List.getElem?_eq_some.mp hobj with ⟨h, _⟩
    exact h
  refine ⟨?_, ?_, ?_, ?_, ?_, ?_, ?_⟩
  · simp [img_project, bind_apply, pure_apply, GetImg_object w ref data hobj, OutImg, allocImg,
      invoke, hok, rb_ary_new3_2]
  · simp
  · simp
  · omega
  · omega
  · simp [img_project, bind_apply, pure_apply, GetImg_object w ref data hobj, OutImg, allocImg,
      invoke, hok]
  · intro hout vout rest houts
    simp [img_project, bind_apply, pure_apply, GetImg_object w ref data hobj, OutImg, allocImg,
      invoke, hok, houts, writeOuts, setRaster]

/-- C10. The header accessors are plain reads. For an image object with a
raster, `x_size`, `y_size`, `bands`, `x_offset`, `y_offset` return the stored
integers, `x_res` and `y_res` the stored resolutions, and `band_fmt` the symbol
`header_band_fmt_to_id` gives for the stored tag, which is one of the eleven
interned symbols; for an image object without a raster each returns nil; in
every case the world, and with it every field of every image, is left as it
was. -/
theorem header_accessors_read (rb_intern : String → ID) (w : World) (ref : Nat)
    (data : vipsImg) (hobj : w.objs[ref]? = some data) :
    (∀ im, data.im = some im →
      header_x_size (VALUE.object ref) w = (Except.ok (VALUE.integer im.Xsize), w) ∧
      header_y_size (VALUE.object ref) w = (Except.ok (VALUE.integer im.Ysize), w) ∧
      header_bands (VALUE.object ref) w = (Except.ok (VALUE.integer im.Bands), w) ∧
      header_x_offset (VALUE.object ref) w = (Except.ok (VALUE.integer im.Xoffset), w) ∧
      header_y_offset (VALUE.object ref) w = (Except.ok (VALUE.integer im.Yoffset), w) ∧
      header_x_res (VALUE.object ref) w = (Except.ok (VALUE.float im.Xres), w) ∧
      header_y_res (VALUE.object ref) w = (Except.ok (VALUE.float im.Yres), w) ∧
      header_band_fmt (init_header rb_intern) (VALUE.object ref) w =
        (Except.ok (VALUE.symbol (header_band_fmt_to_id (init_header rb_intern) im.BandFmt)),
         w) ∧
      header_band_fmt_to_id (init_header rb_intern) im.BandFmt ∈ bandFmtNames.map rb_intern) ∧
    (data.im = none →
      header_x_size (VALUE.object ref) w = (Except.ok VALUE.Qnil, w) ∧
      header_y_size (VALUE.object ref) w = (Except.ok VALUE.Qnil, w) ∧
      header_bands (VALUE.object ref) w = (Except.ok VALUE.Qnil, w) ∧
      header_x_offset (VALUE.object ref) w = (Except.ok VALUE.Qnil, w) ∧
      header_y_offset (VALUE.object ref) w = (Except.ok VALUE.Qnil, w) ∧
      header_x_res (VALUE.object ref) w = (Except.ok VALUE.Qnil, w) ∧
      header_y_res (VALUE.object ref) w = (Except.ok VALUE.Qnil, w) ∧
      header_band_fmt (init_header rb_intern) (VALUE.object ref) w =
        (Except.ok VALUE.Qnil, w)) := by
  constructor
  · intro im him
    have hm := id_of_fmt_mem (init_header rb_intern) im.BandFmt
    rw [init_header_all] at hm
    simp [header_x_size, header_y_size, header_bands, header_x_offset, header_y_offset,
      header_x_res, header_y_res, header_band_fmt, bind_apply, pure_apply,
      GetImg_object w ref data hobj, him, INT2FIX, rb_float_new, ID2SYM]
    exact List.mem_map.mp hm
  · intro him
    simp [header_x_size, header_y_size, header_bands, header_x_offset, header_y_offset,
      header_x_res, header_y_res, header_band_fmt, bind_apply, pure_apply,
      GetImg_object w ref data hobj, him]

theorem header_accessors_read_witness :
    header_x_size (VALUE.object 0) (sampleWorld [1, 2, 3]) =
      (Except.ok (VALUE.integer 3), sampleWorld [1, 2, 3]) ∧
    header_x_size (VALUE.object 1) (sampleWorld [1, 2, 3]) =
      (Except.ok VALUE.Qnil, sampleWorld [1, 2, 3]) :=
  ⟨((header_accessors_read sampleIntern (sampleWorld [1, 2, 3]) 0
      ⟨some (rowImage [1, 2, 3])⟩ rfl).1 (rowImage [1, 2, 3]) rfl).1,
   ((header_accessors_read sampleIntern (sampleWorld [1, 2, 3]) 1 ⟨none⟩ rfl).2 rfl).1⟩

theorem project_returns_fresh_pair_witness :
    (img_project (sampleEnv 7 22) (VALUE.object 0) (sampleWorld [1, 2, 3])).1 =
      Except.ok (VALUE.array [VALUE.object 2, VALUE.object 3]) :=
  (project_returns_fresh_pair (sampleEnv 7 22) (sampleWorld [1, 2, 3]) 0
    ⟨some (rowImage [1, 2, 3])⟩ rfl rfl).1

/-! ## Version gating -/

theorem atleast_iff (env : Env) (major minor : Nat) :
    ATLEAST_VIPS env major minor = true ↔
      ¬ (env.IM_MAJOR_VERSION < major ∨
          (env.IM_MAJOR_VERSION = major ∧ env.IM_MINOR_VERSION < minor)) := by
  simp only [ATLEAST_VIPS, Bool.or_eq_true, Bool.and_eq_true, decide_eq_true_eq]
  omega

theorem nogate_bind {α β : Type} (m : Rb α) (f : α → Rb β)
    (hm : NoGateRaise m) (hf : ∀ a, NoGateRaise (f a)) : NoGateRaise (m >>= f) := by
  intro w msg
  rw [bind_apply]
  have h := hm w msg
  rcases hmw : m w with ⟨r, w1⟩
  rw [hmw] at h
  cases r with
  | ok a => exact hf a w1 msg
  | error e =>
    simp only at h ⊢
    intro hc
    apply h
    cases hc
    rfl

theorem nogate_GetImg (obj : VALUE) : NoGateRaise (GetImg obj) := by
  intro w msg
  unfold GetImg
  cases obj <;> simp
  split <;> simp

theorem nogate_allocImg : NoGateRaise allocImg := by
  intro w msg
  simp [allocImg]

theorem nogate_convert {α : Type} (r : Except RubyExn α) : NoGateRaise (Rb.convert r) := by
  intro w msg
  cases r <;> simp [Rb.convert, Rb.pure, Rb.raise]

theorem nogate_invoke {α : Type} (env : Env) (c : LibCall) (outs : List VALUE)
    (v : LibReply → α) :
    NoGateRaise (invoke env c outs >>= fun r =>
      if r.status ≠ 0 then (vips_lib_error : Rb PUnit) >>= fun _ => pure (v r)
      else pure PUnit.unit >>= fun _ => pure (v r)) := by
  intro w msg
  simp only [bind_apply, invoke]
  by_cases hs : (env.lib c).status = 0
  · simp [hs, bind_apply, pure_apply]
  · simp [hs, bind_apply, vips_lib_error]

theorem mpercent_hist_body_nogate (env : Env) (obj percent : VALUE) :
    NoGateRaise (do
      let im ← GetImg obj
      let p ← Rb.convert (env.NUM2DBL percent)
      let r ← invoke env (LibCall.im_mpercent_hist im p) []
      if r.status ≠ 0 then vips_lib_error
      return INT2NUM r.ret) := by
  simp only []
  repeat (first
    | exact nogate_invoke _ _ _ _
    | (apply nogate_bind _ _
        (by first | exact nogate_GetImg _ | exact nogate_allocImg | exact nogate_convert _)
       intro _))

theorem tone_analyse_body_nogate (env : Env) (obj ps pm ph s m h : VALUE) :
    NoGateRaise (do
      let im ← GetImg obj
      let new ← OutImg obj
      let cps ← Rb.convert (env.NUM2DBL ps)
      let cpm ← Rb.convert (env.NUM2DBL pm)
      let cph ← Rb.convert (env.NUM2DBL ph)
      let cs ← Rb.convert (env.NUM2DBL s)
      let cm ← Rb.convert (env.NUM2DBL m)
      let ch ← Rb.convert (env.NUM2DBL h)
      let r ← invoke env (LibCall.im_tone_analyse im cps cpm cph cs cm ch) [new]
      if r.status ≠ 0 then vips_lib_error
      return new) := by
  simp only [OutImg]
  repeat (first
    | exact nogate_invoke _ _ _ _
    | (apply nogate_bind _ _
        (by first | exact nogate_GetImg _ | exact nogate_allocImg | exact nogate_convert _)
       intro _))

theorem convert_ok {α : Type} (r : Except RubyExn α) (a : α) (h : r = Except.ok a) (w : World) :
    Rb.convert r w = (Except.ok a, w) := by
  subst h
  rfl

/-- C5. Version gating. `mpercent_hist` raises "This operation is not supported
by your version of VIPS" and leaves the world as it was (no library call)
exactly when the VIPS version is below 7.22, and `tone_analyse` does so exactly
when the version is below 7.23. From those versions on the call is forwarded:
for a receiver that is an image object and arguments Ruby converts to numbers,
the routine is called once with the receiver's raster and the converted
arguments, and the outcome is the routine's own: its number, or the new image,
when it reports success, and a library error when it does not. -/
theorem version_gating (env : Env) (w : World) (obj percent ps pm ph s m h : VALUE) :
    (img_mpercent_hist env obj percent w = (Except.error (Exn.eVIPSError unsupportedMsg), w) ↔
      (env.IM_MAJOR_VERSION < 7 ∨ (env.IM_MAJOR_VERSION = 7 ∧ env.IM_MINOR_VERSION < 22))) ∧
    (img_tone_analyse env obj ps pm ph s m h w =
        (Except.error (Exn.eVIPSError unsupportedMsg), w) ↔
      (env.IM_MAJOR_VERSION < 7 ∨ (env.IM_MAJOR_VERSION = 7 ∧ env.IM_MINOR_VERSION < 23))) ∧
    (¬ (env.IM_MAJOR_VERSION < 7 ∨ (env.IM_MAJOR_VERSION = 7 ∧ env.IM_MINOR_VERSION < 22)) →
      ∀ ref data p, obj = VALUE.object ref → w.objs[ref]? = some data →
        env.NUM2DBL percent = Except.ok p →
        img_mpercent_hist env obj percent w =
          (if (env.lib (LibCall.im_mpercent_hist data.im p)).status = 0
             then Except.ok (VALUE.integer (env.lib (LibCall.im_mpercent_hist data.im p)).ret)
             else Except.error (Exn.lib_error
               (w.errbuf ++ (env.lib (LibCall.im_mpercent_hist data.im p)).diag)),
           { objs := w.objs,
             calls := w.calls ++ [LibCall.im_mpercent_hist data.im p],
             errbuf := w.errbuf ++ (env.lib (LibCall.im_mpercent_hist data.im p)).diag })) ∧
    (¬ (env.IM_MAJOR_VERSION < 7 ∨ (env.IM_MAJOR_VERSION = 7 ∧ env.IM_MINOR_VERSION < 23)) →
      ∀ ref data cps cpm cph cs cm ch, obj = VALUE.object ref → w.objs[ref]? = some data →
        env.NUM2DBL ps = Except.ok cps → env.NUM2DBL pm = Except.ok cpm →
        env.NUM2DBL ph = Except.ok cph → env.NUM2DBL s = Except.ok cs →
        env.NUM2DBL m = Except.ok cm → env.NUM2DBL h = Except.ok ch →
        img_tone_analyse env obj ps pm ph s m h w =
          (if (env.lib (LibCall.im_tone_analyse data.im cps cpm cph cs cm ch)).status = 0
             then Except.ok (VALUE.object w.objs.length)
             else Except.error (Exn.lib_error
               (w.errbuf ++ (env.lib (LibCall.im_tone_analyse data.im cps cpm cph cs cm ch)).diag)),
           { objs := writeOuts (w.objs ++ [⟨some freshImage⟩]) [VALUE.object w.objs.length]
               (env.lib (LibCall.im_tone_analyse data.im cps cpm cph cs cm ch)).outs,
             calls := w.calls ++ [LibCall.im_tone_analyse data.im cps cpm cph cs cm ch],
             errbuf := w.errbuf ++
               (env.lib (LibCall.im_tone_analyse data.im cps cpm cph cs cm ch)).diag })) := by
  refine ⟨?_, ?_, ?_, ?_⟩
  · rw [← not_iff_not, ← atleast_iff]
    unfold img_mpercent_hist
    cases hv : ATLEAST_VIPS env 7 22
    · simp [rb_raise_eVIPSError, Rb.raise]
    · simp only [if_true, not_true_eq_false, iff_true]
      intro hc
      exact mpercent_hist_body_nogate env obj percent w unsupportedMsg (congrArg Prod.fst hc)
  · rw [← not_iff_not, ← atleast_iff]
    unfold img_tone_analyse
    cases hv : ATLEAST_VIPS env 7 23
    · simp [rb_raise_eVIPSError, Rb.raise]
    · simp only [if_true, not_true_eq_false, iff_true]
      intro hc
      exact tone_analyse_body_nogate env obj ps pm ph s m h w unsupportedMsg
        (congrArg Prod.fst hc)
  · intro hv ref data p hobj hdata hp
    rw [← atleast_iff] at hv
    subst hobj
    by_cases hs : (env.lib (LibCall.im_mpercent_hist data.im p)).status = 0
    · simp [img_mpercent_hist, hv, bind_apply, pure_apply, GetImg_object w ref data hdata,
        convert_ok _ p hp, invoke, hs, INT2NUM, writeOuts]
    · simp [img_mpercent_hist, hv, bind_apply, pure_apply, GetImg_object w ref data hdata,
        convert_ok _ p hp, invoke, hs, vips_lib_error, writeOuts]
  · intro hv ref data cps cpm cph cs cm ch hobj hdata h1 h2 h3 h4 h5 h6
    rw [← atleast_iff] at hv
    subst hobj
    by_cases hs : (env.lib (LibCall.im_tone_analyse data.im cps cpm cph cs cm ch)).status = 0
    · simp [img_tone_analyse, hv, bind_apply, pure_apply, GetImg_object w ref data hdata,
        convert_ok _ _ h1, convert_ok _ _ h2, convert_ok _ _ h3, convert_ok _ _ h4,
        convert_ok _ _ h5, convert_ok _ _ h6, invoke, hs, OutImg, allocImg]
    · simp [img_tone_analyse, hv, bind_apply, pure_apply, GetImg_object w ref data hdata,
        convert_ok _ _ h1, convert_ok _ _ h2, convert_ok _ _ h3, convert_ok _ _ h4,
        convert_ok _ _ h5, convert_ok _ _ h6, invoke, hs, OutImg, allocImg, vips_lib_error]

theorem version_gating_witness :
    img_mpercent_hist (sampleEnv 7 21) (VALUE.object 0) (VALUE.float ⟨0⟩) (sampleWorld [1, 2, 3])
      = (Except.error (Exn.eVIPSError unsupportedMsg), sampleWorld [1, 2, 3]) :=
  (version_gating (sampleEnv 7 21) (sampleWorld [1, 2, 3]) (VALUE.object 0) (VALUE.float ⟨0⟩)
    VALUE.Qnil VALUE.Qnil VALUE.Qnil VALUE.Qnil VALUE.Qnil VALUE.Qnil).1.mpr (by decide)

theorem Rb_pure_apply {α : Type} (a : α) (w : World) : Rb.pure a w = (Except.ok a, w) := rfl

theorem Rb_raise_apply {α : Type} (e : Exn) (w : World) :
    (Rb.raise e : Rb α) w = (Except.error e, w) := rfl

theorem convert_error {α : Type} (r : Except RubyExn α) (e : RubyExn)
    (h : r = Except.error e) (w : World) :
    Rb.convert r w = (Except.error (Exn.argument e), w) := by
  subst h
  rfl

theorem invoke_tail_calls {α : Type} (env : Env) (c : LibCall) (outs : List VALUE)
    (v : LibReply → α) (w : World) :
    ((invoke env c outs >>= fun r =>
      if r.status ≠ 0 then (vips_lib_error : Rb PUnit) >>= fun _ => pure (v r)
      else pure PUnit.unit >>= fun _ => pure (v r)) w).2.calls = w.calls ++ [c] := by
  simp only [bind_apply, invoke]
  by_cases hs : (env.lib c).status = 0
  · simp [hs, bind_apply, pure_apply]
  · simp [hs, bind_apply, vips_lib_error]

/-- C7. Band selection in `histgr`, `hist` and `heq`, for a receiver that is an
image object. With the band argument omitted or nil the routine is called
with band -1; with an Integer k that Ruby's `NUM2INT` converts to k it is
called with exactly k; and for every argument list whatever, either no call is
made or the one call made carries -1 (argument omitted or nil) or the value
`NUM2INT` gave for the single argument: no other value is substituted. -/
theorem band_argument_default (env : Env) (w : World) (ref : Nat) (data : vipsImg)
    (hobj : w.objs[ref]? = some data) :
    (∀ argv, argv = [] ∨ argv = [VALUE.Qnil] →
      (img_histgr env argv (VALUE.object ref) w).2.calls =
        w.calls ++ [LibCall.im_histgr data.im (-1)] ∧
      (img_hist env argv (VALUE.object ref) w).2.calls =
        w.calls ++ [LibCall.im_hist data.im (-1)] ∧
      (img_heq env argv (VALUE.object ref) w).2.calls =
        w.calls ++ [LibCall.im_heq data.im (-1)]) ∧
    (∀ k, env.NUM2INT (VALUE.integer k) = Except.ok k →
      (img_histgr env [VALUE.integer k] (VALUE.object ref) w).2.calls =
        w.calls ++ [LibCall.im_histgr data.im k] ∧
      (img_hist env [VALUE.integer k] (VALUE.object ref) w).2.calls =
        w.calls ++ [LibCall.im_hist data.im k] ∧
      (img_heq env [VALUE.integer k] (VALUE.object ref) w).2.calls =
        w.calls ++ [LibCall.im_heq data.im k]) ∧
    (∀ argv,
      ((img_histgr env argv (VALUE.object ref) w).2.calls = w.calls ∨
        ∃ b, (img_histgr env argv (VALUE.object ref) w).2.calls =
            w.calls ++ [LibCall.im_histgr data.im b] ∧
          ((b = -1 ∧ (argv = [] ∨ argv = [VALUE.Qnil])) ∨
            ∃ v, argv = [v] ∧ env.NUM2INT v = Except.ok b)) ∧
      ((img_hist env argv (VALUE.object ref) w).2.calls = w.calls ∨
        ∃ b, (img_hist env argv (VALUE.object ref) w).2.calls =
            w.calls ++ [LibCall.im_hist data.im b] ∧
          ((b = -1 ∧ (argv = [] ∨ argv = [VALUE.Qnil])) ∨
            ∃ v, argv = [v] ∧ env.NUM2INT v = Except.ok b)) ∧
      ((img_heq env argv (VALUE.object ref) w).2.calls = w.calls ∨
        ∃ b, (img_heq env argv (VALUE.object ref) w).2.calls =
            w.calls ++ [LibCall.im_heq data.im b] ∧
          ((b = -1 ∧ (argv = [] ∨ argv = [VALUE.Qnil])) ∨
            ∃ v, argv = [v] ∧ env.NUM2INT v = Except.ok b))) := by
  have hg := GetImg_object w ref data hobj
  refine ⟨?_, ?_, ?_⟩
  · intro argv hargv
    rcases hargv with h | h <;> subst h <;>
    refine ⟨?_, ?_, ?_⟩ <;>
    simp only [img_histgr, img_hist, img_heq, bind_apply, hg, OutImg, allocImg,
      rb_scan_args_01, Rb_pure_apply, NIL_P, if_true] <;>
    exact invoke_tail_calls env _ _ (fun _ => VALUE.object w.objs.length) _
  · intro k hk
    refine ⟨?_, ?_, ?_⟩ <;>
    simp only [img_histgr, img_hist, img_heq, bind_apply, hg, OutImg, allocImg,
      rb_scan_args_01, Rb_pure_apply, NIL_P, Bool.false_eq_true, if_false,
      convert_ok _ k hk] <;>
    exact invoke_tail_calls env _ _ (fun _ => VALUE.object w.objs.length) _
  · intro argv
    rcases argv with _ | ⟨v, _ | ⟨v2, rest⟩⟩
    · refine ⟨?_, ?_, ?_⟩ <;> right <;> refine ⟨-1, ?_, Or.inl ⟨rfl, Or.inl rfl⟩⟩ <;>
      simp only [img_histgr, img_hist, img_heq, bind_apply, hg, OutImg, allocImg,
        rb_scan_args_01, Rb_pure_apply, NIL_P, if_true] <;>
      exact invoke_tail_calls env _ _ (fun _ => VALUE.object w.objs.length) _
    · by_cases hnil : NIL_P v = true
      · have hv : v = VALUE.Qnil := by
          cases v <;> simp_all [NIL_P]
        subst hv
        refine ⟨?_, ?_, ?_⟩ <;> right <;> refine ⟨-1, ?_, Or.inl ⟨rfl, Or.inr rfl⟩⟩ <;>
        simp only [img_histgr, img_hist, img_heq, bind_apply, hg, OutImg, allocImg,
          rb_scan_args_01, Rb_pure_apply, NIL_P, if_true] <;>
        exact invoke_tail_calls env _ _ (fun _ => VALUE.object w.objs.length) _
      · cases hconv : env.NUM2INT v with
        | error e =>
          refine ⟨?_, ?_, ?_⟩ <;> left <;>
          simp only [img_histgr, img_hist, img_heq, bind_apply, hg, OutImg, allocImg,
            rb_scan_args_01, Rb_pure_apply, hnil, Bool.false_eq_true, if_false,
            convert_error _ e hconv]
        | ok b =>
          refine ⟨?_, ?_, ?_⟩ <;> right <;> refine ⟨b, ?_, Or.inr ⟨v, rfl, hconv⟩⟩ <;>
          simp only [img_histgr, img_hist, img_heq, bind_apply, hg, OutImg, allocImg,
            rb_scan_args_01, Rb_pure_apply, hnil, Bool.false_eq_true, if_false,
            convert_ok _ b hconv] <;>
          exact invoke_tail_calls env _ _ (fun _ => VALUE.object w.objs.length) _
    · refine ⟨?_, ?_, ?_⟩ <;> left <;>
      simp only [img_histgr, img_hist, img_heq, bind_apply, hg, OutImg, allocImg,
        rb_scan_args_01, Rb_raise_apply]

theorem band_argument_default_witness :
    (img_histgr (sampleEnv 7 22) [VALUE.integer 2] (VALUE.object 0) (sampleWorld [1, 2, 3])).2.calls
      = [LibCall.im_histgr (some (rowImage [1, 2, 3])) 2] :=
  ((band_argument_default (sampleEnv 7 22) (sampleWorld [1, 2, 3]) 0
    ⟨some (rowImage [1, 2, 3])⟩ rfl).2.1 2 rfl).1

/-! ## Monotonicity -/

theorem nonDecreasing_iff (l : List Int) :
    nonDecreasing l = true ↔ List.Chain' (fun a b => a ≤ b) l := by
  induction l with
  | nil => simp [nonDecreasing]
  | cons a t ih =>
    cases t with
    | nil => simp [nonDecreasing]
    | cons b rest =>
      simp only [nonDecreasing, Bool.and_eq_true, decide_eq_true_eq, List.chain'_cons]
      rw [ih]

theorem nonIncreasing_iff (l : List Int) :
    nonIncreasing l = true ↔ List.Chain' (fun a b => b ≤ a) l := by
  induction l with
  | nil => simp [nonIncreasing]
  | cons a t ih =>
    cases t with
    | nil => simp [nonIncreasing]
    | cons b rest =>
      simp only [nonIncreasing, Bool.and_eq_true, decide_eq_true_eq, List.chain'_cons]
      rw [ih]

theorem monotonic_iff (l : List Int) :
    monotonic l = true ↔
      (List.Chain' (fun a b => a ≤ b) l ∨ List.Chain' (fun a b => b ≤ a) l) := by
  simp only [monotonic, Bool.or_eq_true, nonDecreasing_iff, nonIncreasing_iff]

theorem monotonic_p_eval (env : Env) (hlib : MonotonicAsSpecified env) (w : World) (ref : Nat)
    (im : IMAGE) (hobj : w.objs[ref]? = some ⟨some im⟩) :
    (img_monotonic_p env (VALUE.object ref) w).1 =
      Except.ok (if monotonic im.samples = true then VALUE.Qtrue else VALUE.Qfalse) := by
  have h := hlib im
  have hg := GetImg_object w ref ⟨some im⟩ hobj
  by_cases hm : monotonic im.samples = true
  · have hr : (env.lib (LibCall.im_ismonotonic (some im))).ret ≠ 0 := h.2.mpr hm
    simp [img_monotonic_p, bind_apply, pure_apply, hg, invoke, h.1, hr, hm]
  · have hr : (env.lib (LibCall.im_ismonotonic (some im))).ret = 0 := by
      by_contra hc
      exact hm (h.2.mp hc)
    simp [img_monotonic_p, bind_apply, pure_apply, hg, invoke, h.1, hr, hm]

/-- C8. With a library whose monotonicity test is the one the spec describes,
`monotonic?` on an image object with a raster returns true exactly when the
samples are non-decreasing throughout or non-increasing throughout, and false
exactly when they are neither; it returns true for 1,2,3,4,5 and for
5,4,3,2,1 and false for 1,3,2,5,4. -/
theorem monotonic_p_both_directions (env : Env) (hlib : MonotonicAsSpecified env) (w : World)
    (ref : Nat) (im : IMAGE) (hobj : w.objs[ref]? = some ⟨some im⟩) :
    ((img_monotonic_p env (VALUE.object ref) w).1 = Except.ok VALUE.Qtrue ↔
      (List.Chain' (fun a b => a ≤ b) im.samples ∨
        List.Chain' (fun a b => b ≤ a) im.samples)) ∧
    ((img_monotonic_p env (VALUE.object ref) w).1 = Except.ok VALUE.Qfalse ↔
      ¬ (List.Chain' (fun a b => a ≤ b) im.samples ∨
        List.Chain' (fun a b => b ≤ a) im.samples)) ∧
    (im.samples = [1, 2, 3, 4, 5] →
      (img_monotonic_p env (VALUE.object ref) w).1 = Except.ok VALUE.Qtrue) ∧
    (im.samples = [5, 4, 3, 2, 1] →
      (img_monotonic_p env (VALUE.object ref) w).1 = Except.ok VALUE.Qtrue) ∧
    (im.samples = [1, 3, 2, 5, 4] →
      (img_monotonic_p env (VALUE.object ref) w).1 = Except.ok VALUE.Qfalse) := by
  have he := monotonic_p_eval env hlib w ref im hobj
  rw [he, ← monotonic_iff]
  refine ⟨?_, ?_, ?_, ?_, ?_⟩
  · by_cases hm : monotonic im.samples = true <;> simp [hm]
  · by_cases hm : monotonic im.samples = true <;> simp [hm]
  · intro hs
    rw [hs]
    rfl
  · intro hs
    rw [hs]
    rfl
  · intro hs
    rw [hs]
    rfl

theorem sampleEnv_monotonic (major minor : Nat) : MonotonicAsSpecified (sampleEnv major minor) := by
  intro im
  simp only [sampleEnv, sampleLib, okReply]
  by_cases hm : monotonic im.samples = true <;> simp [hm]

theorem monotonic_p_both_directions_witness :
    (img_monotonic_p (sampleEnv 7 22) (VALUE.object 0) (sampleWorld [1, 3, 2, 5, 4])).1 =
      Except.ok VALUE.Qfalse :=
  (monotonic_p_both_directions (sampleEnv 7 22) (sampleEnv_monotonic 7 22)
    (sampleWorld [1, 3, 2, 5, 4]) 0 (rowImage [1, 3, 2, 5, 4]) rfl).2.2.2.2 rfl

/-! ## Theorems: the result flag of the monotonicity test -/

theorem monotonic_p_run (env : Env) (w : World) (ref : Nat) (data : vipsImg)
    (hobj : w.objs[ref]? = some data)
    (hok : (env.lib (LibCall.im_ismonotonic data.im)).status = 0) :
    (img_monotonic_p env (VALUE.object ref) w).1 =
      Except.ok (if (env.lib (LibCall.im_ismonotonic data.im)).ret = 0
        then VALUE.Qfalse else VALUE.Qtrue) := by
  simp [img_monotonic_p, bind_apply, pure_apply, GetImg_object w ref data hobj, invoke, hok]

theorem monotonic_p_returns_bool (env : Env) (obj : VALUE) (w : World) (v : VALUE)
    (h : (img_monotonic_p env obj w).1 = Except.ok v) :
    v = VALUE.Qtrue ∨ v = VALUE.Qfalse := by
  simp only [img_monotonic_p, bind_apply] at h
  rcases hg : GetImg obj w with ⟨r, w1⟩
  rw [hg] at h
  cases r with
  | error e => simp at h
  | ok im =>
    simp only [invoke] at h
    by_cases hs : (env.lib (LibCall.im_ismonotonic im)).status = 0
    · by_cases hr : (env.lib (LibCall.im_ismonotonic im)).ret = 0
      · simp [hs, hr, bind_apply, pure_apply] at h
        exact Or.inr h.symm
      · simp [hs, hr, bind_apply, pure_apply] at h
        exact Or.inl h.symm
    · simp [hs, bind_apply, vips_lib_error] at h

/-- C11. The wrapper `monotonic?` turns the routine's integer flag into a
boolean and nothing else. Whatever the receiver, a value it returns is true or
false, never nil and never an Integer. When the receiver is an image object
and the routine reports success, it returns false exactly when the flag is 0
and true exactly when the flag is not 0, be it positive or negative. -/
theorem monotonic_p_flag_to_bool (env : Env) (w : World) (obj : VALUE) :
    (∀ v, (img_monotonic_p env obj w).1 = Except.ok v →
      (v = VALUE.Qtrue ∨ v = VALUE.Qfalse) ∧ v ≠ VALUE.Qnil ∧ ∀ n, v ≠ VALUE.integer n) ∧
    (∀ ref data, obj = VALUE.object ref → w.objs[ref]? = some data →
      (env.lib (LibCall.im_ismonotonic data.im)).status = 0 →
      ((img_monotonic_p env obj w).1 = Except.ok VALUE.Qfalse ↔
        (env.lib (LibCall.im_ismonotonic data.im)).ret = 0) ∧
      ((img_monotonic_p env obj w).1 = Except.ok VALUE.Qtrue ↔
        (env.lib (LibCall.im_ismonotonic data.im)).ret ≠ 0) ∧
      ((img_monotonic_p env obj w).1 = Except.ok VALUE.Qtrue ↔
        (0 < (env.lib (LibCall.im_ismonotonic data.im)).ret ∨
          (env.lib (LibCall.im_ismonotonic data.im)).ret < 0))) := by
  constructor
  · intro v hv
    rcases monotonic_p_returns_bool env obj w v hv with h | h <;> subst h <;> simp
  · intro ref data hobj hdata hok
    subst hobj
    rw [monotonic_p_run env w ref data hdata hok]
    by_cases hr : (env.lib (LibCall.im_ismonotonic data.im)).ret = 0
    · simp [hr]
    · have hsign : 0 < (env.lib (LibCall.im_ismonotonic data.im)).ret ∨
          (env.lib (LibCall.im_ismonotonic data.im)).ret < 0 := by omega
      simp [hr, hsign]

theorem monotonic_p_flag_to_bool_witness :
    (img_monotonic_p (sampleEnv 7 22) (VALUE.object 0) (sampleWorld [1, 2, 3])).1 =
      Except.ok VALUE.Qtrue :=
  ((monotonic_p_flag_to_bool (sampleEnv 7 22) (sampleWorld [1, 2, 3]) (VALUE.object 0)).2
    0 ⟨some (rowImage [1, 2, 3])⟩ rfl rfl rfl).2.1.mpr (by decide)

/-! ## Theorems: metadata retrieval -/

theorem header_meta_get_run (env : Env) (w : World) (ref : Nat) (data : vipsImg)
    (hobj : w.objs[ref]? = some data) (name : String) :
    header_meta_get env (VALUE.object ref) name w =
      (if (env.lib (LibCall.im_meta_get_blob data.im name)).status ≠ 0
         then Except.ok VALUE.Qnil
         else Except.ok (VALUE.string
           ((env.lib (LibCall.im_meta_get_blob data.im name)).buf.take
             (env.lib (LibCall.im_meta_get_blob data.im name)).len)),
       { objs := w.objs,
         calls := w.calls ++ [LibCall.im_meta_get_blob data.im name],
         errbuf := w.errbuf ++ (env.lib (LibCall.im_meta_get_blob data.im name)).diag }) := by
  by_cases hs : (env.lib (LibCall.im_meta_get_blob data.im name)).status = 0
  · simp [header_meta_get, bind_apply, pure_apply, GetImg_object w ref data hobj, invoke, hs,
      writeOuts, rb_tainted_str_new]
  · simp [header_meta_get, bind_apply, pure_apply, GetImg_object w ref data hobj, invoke, hs,
      writeOuts]

theorem header_meta_p_run (env : Env) (w : World) (ref : Nat) (data : vipsImg)
    (hobj : w.objs[ref]? = some data) (name : String) :
    header_meta_p env (VALUE.object ref) name w =
      (if (env.lib (LibCall.im_header_get_typeof data.im name)).status ≠ 0
         then Except.ok VALUE.Qtrue else Except.ok VALUE.Qfalse,
       { objs := w.objs,
         calls := w.calls ++ [LibCall.im_header_get_typeof data.im name],
         errbuf := w.errbuf ++ (env.lib (LibCall.im_header_get_typeof data.im name)).diag }) := by
  by_cases hs : (env.lib (LibCall.im_header_get_typeof data.im name)).status = 0
  · simp [header_meta_p, bind_apply, pure_apply, GetImg_object w ref data hobj, invoke, hs,
      writeOuts]
  · simp [header_meta_p, bind_apply, pure_apply, GetImg_object w ref data hobj, invoke, hs,
      writeOuts]

/-- C12. Metadata retrieval on an image object. `exif` and `icc` are the one
lookup `header_meta_get`, and `exif?` and `icc?` the one test `header_meta_p`,
applied to the EXIF and to the ICC field name. For every field name the lookup
calls the blob routine once with the receiver's raster and that name, returns
nil exactly when the routine reports failure, and otherwise returns the string
of the first `len` bytes at the reported buffer, which has exactly the
reported length whenever the buffer holds that many bytes; the test calls the
type routine once with the same raster and name and returns true exactly when
the reported type is not zero and false exactly when it is zero. -/
theorem metadata_retrieval (env : Env) (w : World) (ref : Nat) (data : vipsImg)
    (hobj : w.objs[ref]? = some data) :
    (header_exif env (VALUE.object ref) =
        header_meta_get env (VALUE.object ref) env.IM_META_EXIF_NAME ∧
      header_icc env (VALUE.object ref) =
        header_meta_get env (VALUE.object ref) env.IM_META_ICC_NAME ∧
      header_exif_p env (VALUE.object ref) =
        header_meta_p env (VALUE.object ref) env.IM_META_EXIF_NAME ∧
      header_icc_p env (VALUE.object ref) =
        header_meta_p env (VALUE.object ref) env.IM_META_ICC_NAME) ∧
    (∀ name,
      (header_meta_get env (VALUE.object ref) name w).2.calls =
        w.calls ++ [LibCall.im_meta_get_blob data.im name] ∧
      ((header_meta_get env (VALUE.object ref) name w).1 = Except.ok VALUE.Qnil ↔
        (env.lib (LibCall.im_meta_get_blob data.im name)).status ≠ 0) ∧
      ((env.lib (LibCall.im_meta_get_blob data.im name)).status = 0 →
        (header_meta_get env (VALUE.object ref) name w).1 =
          Except.ok (VALUE.string
            ((env.lib (LibCall.im_meta_get_blob data.im name)).buf.take
              (env.lib (LibCall.im_meta_get_blob data.im name)).len)) ∧
        ((env.lib (LibCall.im_meta_get_blob data.im name)).len ≤
            (env.lib (LibCall.im_meta_get_blob data.im name)).buf.length →
          ((env.lib (LibCall.im_meta_get_blob data.im name)).buf.take
              (env.lib (LibCall.im_meta_get_blob data.im name)).len).length =
            (env.lib (LibCall.im_meta_get_blob data.im name)).len)) ∧
      (header_meta_p env (VALUE.object ref) name w).2.calls =
        w.calls ++ [LibCall.im_header_get_typeof data.im name] ∧
      ((header_meta_p env (VALUE.object ref) name w).1 = Except.ok VALUE.Qtrue ↔
        (env.lib (LibCall.im_header_get_typeof data.im name)).status ≠ 0) ∧
      ((header_meta_p env (VALUE.object ref) name w).1 = Except.ok VALUE.Qfalse ↔
        (env.lib (LibCall.im_header_get_typeof data.im name)).status = 0)) := by
  refine ⟨⟨rfl, rfl, rfl, rfl⟩, ?_⟩
  intro name
  rw [header_meta_get_run env w ref data hobj name, header_meta_p_run env w ref data hobj name]
  refine ⟨rfl, ?_, ?_, rfl, ?_, ?_⟩
  · by_cases hs : (env.lib (LibCall.im_meta_get_blob data.im name)).status = 0 <;> simp [hs]
  · intro hs
    refine ⟨by simp [hs], ?_⟩
    intro hlen
    exact List.length_take_of_le hlen
  · by_cases hs : (env.lib (LibCall.im_header_get_typeof data.im name)).status = 0 <;>
      simp [hs]
  · by_cases hs : (env.lib (LibCall.im_header_get_typeof data.im name)).status = 0 <;>
      simp [hs]

theorem metadata_retrieval_witness :
    (header_exif metaEnv (VALUE.object 0) (sampleWorld [1, 2, 3])).1 =
        Except.ok (VALUE.string [69, 120, 105, 102]) ∧
      (header_icc metaEnv (VALUE.object 0) (sampleWorld [1, 2, 3])).1 = Except.ok VALUE.Qnil ∧
      (header_exif_p metaEnv (VALUE.object 0) (sampleWorld [1, 2, 3])).1 =
        Except.ok VALUE.Qtrue ∧
      (header_icc_p metaEnv (VALUE.object 0) (sampleWorld [1, 2, 3])).1 =
        Except.ok VALUE.Qfalse :=
  ⟨(((metadata_retrieval metaEnv (sampleWorld [1, 2, 3]) 0 ⟨some (rowImage [1, 2, 3])⟩
      rfl).2 "exif-data").2.2.1 rfl).1,
   ((metadata_retrieval metaEnv (sampleWorld [1, 2, 3]) 0 ⟨some (rowImage [1, 2, 3])⟩
      rfl).2 "icc-profile-data").2.1.mpr (by decide),
   ((metadata_retrieval metaEnv (sampleWorld [1, 2, 3]) 0 ⟨some (rowImage [1, 2, 3])⟩
      rfl).2 "exif-data").2.2.2.2.1.mpr (by decide),
   ((metadata_retrieval metaEnv (sampleWorld [1, 2, 3]) 0 ⟨some (rowImage [1, 2, 3])⟩
      rfl).2 "icc-profile-data").2.2.2.2.2.mpr rfl⟩

/-! ## Theorems: no backend failure is swallowed -/

theorem reads_GetImg (obj : VALUE) : Reads (GetImg obj) := by
  intro w
  unfold GetImg
  cases obj <;> simp
  split <;> simp

theorem reads_scan (argv : List VALUE) : Reads (rb_scan_args_01 argv) := by
  intro w
  unfold rb_scan_args_01
  split <;> simp [Rb.pure, Rb.raise]

theorem reads_convert {α : Type} (r : Except RubyExn α) : Reads (Rb.convert r) := by
  intro w
  cases r <;> simp [Rb.convert, Rb.pure, Rb.raise]

theorem reads_pure {α : Type} (a : α) : Reads (Rb.pure a) := by
  intro w
  simp [Rb.pure]

theorem reads_ite {α : Type} (c : Prop) [Decidable c] (a b : Rb α)
    (ha : Reads a) (hb : Reads b) : Reads (if c then a else b) := by
  split
  · exact ha
  · exact hb

theorem pinned_reads {α : Type} (env : Env) (name : String) (res : Nat → LibReply → VALUE)
    (m : Rb α) (f : α → Rb VALUE) (hm : Reads m) (hf : ∀ a, Pinned env name res (f a)) :
    Pinned env name res (m >>= f) := by
  intro w v hv
  rw [bind_apply] at hv ⊢
  have h := hm w
  rcases hmw : m w with ⟨r, w1⟩
  rw [hmw] at h hv
  simp only at h
  subst h
  cases r with
  | ok a => exact hf a _ v hv
  | error e => simp at hv

theorem pinned_alloc (env : Env) (name : String) (res : VALUE → Nat → LibReply → VALUE)
    (f : VALUE → Rb VALUE) (hf : ∀ new, Pinned env name (res new) (f new)) :
    Pinned env name (fun n r => res (VALUE.object n) (n + 1) r) (allocImg >>= f) := by
  intro w v hv
  rw [bind_apply] at hv ⊢
  simp only [allocImg] at hv ⊢
  have h := hf (VALUE.object w.objs.length) _ v hv
  simpa using h

theorem pinned_invoke (env : Env) (name : String) (c : LibCall) (outs : List VALUE)
    (v : LibReply → VALUE) (hc : c.routine = name) :
    Pinned env name (fun _ r => v r) (invoke env c outs >>= fun r =>
      if r.status ≠ 0 then (vips_lib_error : Rb PUnit) >>= fun _ => pure (v r)
      else pure PUnit.unit >>= fun _ => pure (v r)) := by
  intro w x hx
  simp only [bind_apply, invoke] at hx ⊢
  by_cases hs : (env.lib c).status = 0
  · simp [hs, bind_apply, pure_apply] at hx ⊢
    exact ⟨hc, hx.symm⟩
  · simp [hs, bind_apply, vips_lib_error] at hx

theorem pinned_gate (env : Env) (name : String) (res : Nat → LibReply → VALUE) (b : Bool)
    (m : Rb VALUE) (msg : String) (hm : Pinned env name res m) :
    Pinned env name res (if b = true then m else rb_raise_eVIPSError msg) := by
  cases b
  · intro w v hv
    simp [rb_raise_eVIPSError, Rb.raise] at hv
  · simpa using hm

theorem run_pinned (env : Env) (obj : VALUE) (op : HistOp) :
    Pinned env op.routine (fun n r => op.result n r) (op.run env obj) := by
  cases op
  case project =>
    simp only [HistOp.run, HistOp.routine, HistOp.result, img_project, OutImg]
    apply pinned_reads _ _ _ _ _ (reads_GetImg _)
    intro im
    apply pinned_alloc env _ (fun new n _ => VALUE.array [new, VALUE.object n])
    intro new
    apply pinned_alloc env _ (fun new2 _ _ => VALUE.array [new, new2])
    intro new2
    exact pinned_invoke _ _ _ _ _ rfl
  all_goals
    simp only [HistOp.run, HistOp.routine, HistOp.result, img_histgr, img_histnd,
      img_s_identity, img_s_identity_ushort, img_s_invertlut, img_s_buildlut, img_maplut,
      img_monotonic_p, img_hist, img_gammacorrect, img_mpercent, img_mpercent_hist, img_heq,
      img_lhisteq, img_stdif, img_s_tone_build_range, img_s_tone_build, img_tone_analyse,
      OutImg, OutImg2, OutPartial, INT2NUM]
    repeat (first
      | exact pinned_invoke _ _ _ _ _ rfl
      | apply pinned_gate
      | (apply pinned_reads _ _ _ _ _
          (by first
            | exact reads_GetImg _
            | exact reads_scan _
            | exact reads_convert _
            | exact reads_ite _ _ _ (reads_pure _) (reads_convert _))
         intro _)
      | (apply pinned_alloc env _ (fun new _ _ => new)
         intro _))

theorem invoke_tail_run (env : Env) (c : LibCall) (outs : List VALUE)
    (v : LibReply → VALUE) (w : World) :
    (invoke env c outs >>= fun r =>
      if r.status ≠ 0 then (vips_lib_error : Rb PUnit) >>= fun _ => pure (v r)
      else pure PUnit.unit >>= fun _ => pure (v r)) w = afterCall env c outs v w := by
  simp only [bind_apply, invoke, afterCall]
  by_cases hs : (env.lib c).status = 0
  · simp [hs, bind_apply, pure_apply]
  · simp [hs, bind_apply, vips_lib_error]

/-- C6. A backend failure is never swallowed, for each of the nineteen
operations written out in `image_histograms_lut.c`.  On every receiver,
argument list and world: the operation raises through `vips_lib_error` exactly
when it called its own library routine, once, and the routine returned a
non-zero status; it returns exactly when it called its routine, once, and the
routine returned zero; and the value it then returns is its result: the image
object this call created, for `project` the array of the two image objects it
created, for `monotonic?` the truth value of the routine's flag, for `mpercent`
and `mpercent_hist` the routine's number.  And the routine is reached: with a
receiver that is an image object, arguments Ruby converts, and a VIPS version
that has the routine, the operation calls it with the receiver's raster and
the converted arguments, stores what it wrote in the new objects, and ends
with the result when the status is zero and with a library error carrying the
library's diagnostic when it is not. -/
theorem backend_failure_surfaces (env : Env) (w : World) :
    (∀ (obj : VALUE) (op : HistOp),
      (isLibError (op.run env obj w).1 = true ↔
        ∃ c, (op.run env obj w).2.calls = w.calls ++ [c] ∧ c.routine = op.routine ∧
          (env.lib c).status ≠ 0) ∧
      (isReturn (op.run env obj w).1 = true ↔
        ∃ c, (op.run env obj w).2.calls = w.calls ++ [c] ∧ c.routine = op.routine ∧
          (env.lib c).status = 0) ∧
      (∀ v, (op.run env obj w).1 = Except.ok v →
        ∃ c, (op.run env obj w).2.calls = w.calls ++ [c] ∧ c.routine = op.routine ∧
          (env.lib c).status = 0 ∧ v = op.result w.objs.length (env.lib c))) ∧
    (∀ ref data, w.objs[ref]? = some data →
      (∀ argv b,
        (((argv = [] ∨ argv = [VALUE.Qnil]) ∧ b = -1) ∨
          ∃ x, argv = [x] ∧ NIL_P x = false ∧ env.NUM2INT x = Except.ok b) →
        (HistOp.histgr argv).run env (VALUE.object ref) w =
            afterCall env (LibCall.im_histgr data.im b) [VALUE.object w.objs.length]
              (fun _ => VALUE.object w.objs.length) (withFresh w) ∧
          (HistOp.hist argv).run env (VALUE.object ref) w =
            afterCall env (LibCall.im_hist data.im b) [VALUE.object w.objs.length]
              (fun _ => VALUE.object w.objs.length) (withFresh w) ∧
          (HistOp.heq argv).run env (VALUE.object ref) w =
            afterCall env (LibCall.im_heq data.im b) [VALUE.object w.objs.length]
              (fun _ => VALUE.object w.objs.length) (withFresh w)) ∧
      (∀ bins n, env.NUM2INT bins = Except.ok n →
        (HistOp.histnd bins).run env (VALUE.object ref) w =
          afterCall env (LibCall.im_histnD data.im n) [VALUE.object w.objs.length]
            (fun _ => VALUE.object w.objs.length) (withFresh w)) ∧
      (HistOp.project.run env (VALUE.object ref) w =
          afterCall env (LibCall.im_project data.im)
            [VALUE.object w.objs.length, VALUE.object (w.objs.length + 1)]
            (fun _ => VALUE.array [VALUE.object w.objs.length,
              VALUE.object (w.objs.length + 1)])
            (withFresh (withFresh w))) ∧
      (∀ ref2 data2, w.objs[ref2]? = some data2 →
        (HistOp.maplut (VALUE.object ref2)).run env (VALUE.object ref) w =
          afterCall env (LibCall.im_maplut data.im data2.im) [VALUE.object w.objs.length]
            (fun _ => VALUE.object w.objs.length) (withFresh w)) ∧
      (HistOp.monotonic_p.run env (VALUE.object ref) w =
          afterCall env (LibCall.im_ismonotonic data.im) []
            (fun r => if r.ret = 0 then VALUE.Qfalse else VALUE.Qtrue) w) ∧
      (∀ exponent e, env.NUM2DBL exponent = Except.ok e →
        (HistOp.gammacorrect exponent).run env (VALUE.object ref) w =
          afterCall env (LibCall.im_gammacorrect data.im e) [VALUE.object w.objs.length]
            (fun _ => VALUE.object w.objs.length) (withFresh w)) ∧
      (∀ percent p, env.NUM2DBL percent = Except.ok p →
        (HistOp.mpercent percent).run env (VALUE.object ref) w =
            afterCall env (LibCall.im_mpercent data.im p) []
              (fun r => VALUE.integer r.ret) w ∧
          (ATLEAST_VIPS env 7 22 = true →
            (HistOp.mpercent_hist percent).run env (VALUE.object ref) w =
              afterCall env (LibCall.im_mpercent_hist data.im p) []
                (fun r => VALUE.integer r.ret) w)) ∧
      (∀ xwin ywin x y, env.NUM2INT xwin = Except.ok x → env.NUM2INT ywin = Except.ok y →
        (HistOp.lhisteq xwin ywin).run env (VALUE.object ref) w =
          afterCall env (LibCall.im_lhisteq data.im x y) [VALUE.object w.objs.length]
            (fun _ => VALUE.object w.objs.length) (withFresh w)) ∧
      (∀ a m0 b s0 xwin ywin ca cm0 cb cs0 x y,
        env.NUM2DBL a = Except.ok ca → env.NUM2DBL m0 = Except.ok cm0 →
        env.NUM2DBL b = Except.ok cb → env.NUM2DBL s0 = Except.ok cs0 →
        env.NUM2INT xwin = Except.ok x → env.NUM2INT ywin = Except.ok y →
        (HistOp.stdif a m0 b s0 xwin ywin).run env (VALUE.object ref) w =
          afterCall env (LibCall.im_stdif data.im ca cm0 cb cs0 x y)
            [VALUE.object w.objs.length]
            (fun _ => VALUE.object w.objs.length) (withFresh w)) ∧
      (∀ ps pm ph s m h cps cpm cph cs cm ch,
        env.NUM2DBL ps = Except.ok cps → env.NUM2DBL pm = Except.ok cpm →
        env.NUM2DBL ph = Except.ok cph → env.NUM2DBL s = Except.ok cs →
        env.NUM2DBL m = Except.ok cm → env.NUM2DBL h = Except.ok ch →
        ATLEAST_VIPS env 7 23 = true →
        (HistOp.tone_analyse ps pm ph s m h).run env (VALUE.object ref) w =
          afterCall env (LibCall.im_tone_analyse data.im cps cpm cph cs cm ch)
            [VALUE.object w.objs.length]
            (fun _ => VALUE.object w.objs.length) (withFresh w))) ∧
    (∀ obj : VALUE,
      (∀ bands n, env.NUM2INT bands = Except.ok n →
        (HistOp.identity bands).run env obj w =
          afterCall env (LibCall.im_identity n) [VALUE.object w.objs.length]
            (fun _ => VALUE.object w.objs.length) (withFresh w)) ∧
      (∀ bands sz n k, env.NUM2INT bands = Except.ok n → env.NUM2INT sz = Except.ok k →
        (HistOp.identity_ushort bands sz).run env obj w =
          afterCall env (LibCall.im_identity_ushort n k) [VALUE.object w.objs.length]
            (fun _ => VALUE.object w.objs.length) (withFresh w)) ∧
      (∀ input lut_size dmask n, env.mask_arg2mask input = Except.ok dmask →
        env.NUM2INT lut_size = Except.ok n →
        (HistOp.invertlut input lut_size).run env obj w =
          afterCall env (LibCall.im_invertlut dmask n) [VALUE.object w.objs.length]
            (fun _ => VALUE.object w.objs.length) (withFresh w)) ∧
      (∀ input dmask, env.mask_arg2mask input = Except.ok dmask →
        (HistOp.buildlut input).run env obj w =
          afterCall env (LibCall.im_buildlut dmask) [VALUE.object w.objs.length]
            (fun _ => VALUE.object w.objs.length) (withFresh w)) ∧
      (∀ in_max out_max lb lw ps pm ph s m h cin cout clb clw cps cpm cph cs cm ch,
        env.NUM2DBL in_max = Except.ok cin → env.NUM2DBL out_max = Except.ok cout →
        env.NUM2DBL lb = Except.ok clb → env.NUM2DBL lw = Except.ok clw →
        env.NUM2DBL ps = Except.ok cps → env.NUM2DBL pm = Except.ok cpm →
        env.NUM2DBL ph = Except.ok cph → env.NUM2DBL s = Except.ok cs →
        env.NUM2DBL m = Except.ok cm → env.NUM2DBL h = Except.ok ch →
        (HistOp.tone_build_range in_max out_max lb lw ps pm ph s m h).run env obj w =
          afterCall env (LibCall.im_tone_build_range cin cout clb clw cps cpm cph cs cm ch)
            [VALUE.object w.objs.length]
            (fun _ => VALUE.object w.objs.length) (withFresh w)) ∧
      (∀ lb lw ps pm ph s m h clb clw cps cpm cph cs cm ch,
        env.NUM2DBL lb = Except.ok clb → env.NUM2DBL lw = Except.ok clw →
        env.NUM2DBL ps = Except.ok cps → env.NUM2DBL pm = Except.ok cpm →
        env.NUM2DBL ph = Except.ok cph → env.NUM2DBL s = Except.ok cs →
        env.NUM2DBL m = Except.ok cm → env.NUM2DBL h = Except.ok ch →
        (HistOp.tone_build lb lw ps pm ph s m h).run env obj w =
          afterCall env (LibCall.im_tone_build clb clw cps cpm cph cs cm ch)
            [VALUE.object w.objs.length]
            (fun _ => VALUE.object w.objs.length) (withFresh w))) := by
  refine ⟨?_, ?_, ?_⟩
  · intro obj op
    exact ⟨(run_faithful env obj op w).1, (run_faithful env obj op w).2,
      run_pinned env obj op w⟩
  · intro ref data hobj
    have hg := GetImg_object w ref data hobj
    refine ⟨?_, ?_, ?_, ?_, ?_, ?_, ?_, ?_, ?_, ?_⟩
    · intro argv b hb
      rcases hb with ⟨h | h, hb⟩ | ⟨x, h, hnil, hconv⟩
      · subst h
        subst hb
        refine ⟨?_, ?_, ?_⟩ <;>
        simp only [HistOp.run, img_histgr, img_hist, img_heq, bind_apply, hg, OutImg,
          allocImg, rb_scan_args_01, Rb_pure_apply, NIL_P, if_true] <;>
        exact invoke_tail_run env _ _ (fun _ => VALUE.object w.objs.length) _
      · subst h
        subst hb
        refine ⟨?_, ?_, ?_⟩ <;>
        simp only [HistOp.run, img_histgr, img_hist, img_heq, bind_apply, hg, OutImg,
          allocImg, rb_scan_args_01, Rb_pure_apply, NIL_P, if_true] <;>
        exact invoke_tail_run env _ _ (fun _ => VALUE.object w.objs.length) _
      · subst h
        refine ⟨?_, ?_, ?_⟩ <;>
        simp only [HistOp.run, img_histgr, img_hist, img_heq, bind_apply, hg, OutImg,
          allocImg, rb_scan_args_01, Rb_pure_apply, hnil, Bool.false_eq_true, if_false,
          convert_ok _ b hconv] <;>
        exact invoke_tail_run env _ _ (fun _ => VALUE.object w.objs.length) _
    · intro bins n h1
      simp only [HistOp.run, img_histnd, bind_apply, hg, OutImg, allocImg,
        convert_ok _ _ h1]
      exact invoke_tail_run env _ _ (fun _ => VALUE.object w.objs.length) _
    · simp only [HistOp.run, img_project, bind_apply, hg, OutImg, allocImg, rb_ary_new3_2]
      simp only [List.length_append, List.length_singleton]
      exact invoke_tail_run env _ _
        (fun _ => VALUE.array [VALUE.object w.objs.length, VALUE.object (w.objs.length + 1)]) _
    · intro ref2 data2 hobj2
      have hg2 := GetImg_object w ref2 data2 hobj2
      simp only [HistOp.run, img_maplut, bind_apply, hg, hg2, OutImg2, allocImg]
      exact invoke_tail_run env _ _ (fun _ => VALUE.object w.objs.length) _
    · simp only [HistOp.run, img_monotonic_p, bind_apply, hg]
      exact invoke_tail_run env _ _ (fun r => if r.ret = 0 then VALUE.Qfalse else VALUE.Qtrue) _
    · intro exponent e h1
      simp only [HistOp.run, img_gammacorrect, bind_apply, hg, OutImg, allocImg,
        convert_ok _ _ h1]
      exact invoke_tail_run env _ _ (fun _ => VALUE.object w.objs.length) _
    · intro percent p h1
      constructor
      · simp only [HistOp.run, img_mpercent, bind_apply, hg, convert_ok _ _ h1]
        exact invoke_tail_run env _ _ (fun r => VALUE.integer r.ret) _
      · intro hv
        simp only [HistOp.run, img_mpercent_hist, hv, if_true, bind_apply, hg,
          convert_ok _ _ h1]
        exact invoke_tail_run env _ _ (fun r => VALUE.integer r.ret) _
    · intro xwin ywin x y h1 h2
      simp only [HistOp.run, img_lhisteq, bind_apply, hg, OutImg, allocImg,
        convert_ok _ _ h1, convert_ok _ _ h2]
      exact invoke_tail_run env _ _ (fun _ => VALUE.object w.objs.length) _
    · intro a m0 b s0 xwin ywin ca cm0 cb cs0 x y h1 h2 h3 h4 h5 h6
      simp only [HistOp.run, img_stdif, bind_apply, hg, OutImg, allocImg,
        convert_ok _ _ h1, convert_ok _ _ h2, convert_ok _ _ h3, convert_ok _ _ h4,
        convert_ok _ _ h5, convert_ok _ _ h6]
      exact invoke_tail_run env _ _ (fun _ => VALUE.object w.objs.length) _
    · intro ps pm ph s m h cps cpm cph cs cm ch h1 h2 h3 h4 h5 h6 hv
      simp only [HistOp.run, img_tone_analyse, hv, if_true, bind_apply, hg, OutImg, allocImg,
        convert_ok _ _ h1, convert_ok _ _ h2, convert_ok _ _ h3, convert_ok _ _ h4,
        convert_ok _ _ h5, convert_ok _ _ h6]
      exact invoke_tail_run env _ _ (fun _ => VALUE.object w.objs.length) _
  · intro obj
    refine ⟨?_, ?_, ?_, ?_, ?_, ?_⟩
    · intro bands n h1
      simp only [HistOp.run, img_s_identity, bind_apply, OutPartial, allocImg,
        convert_ok _ _ h1]
      exact invoke_tail_run env _ _ (fun _ => VALUE.object w.objs.length) _
    · intro bands sz n k h1 h2
      simp only [HistOp.run, img_s_identity_ushort, bind_apply, OutPartial, allocImg,
        convert_ok _ _ h1, convert_ok _ _ h2]
      exact invoke_tail_run env _ _ (fun _ => VALUE.object w.objs.length) _
    · intro input lut_size dmask n h1 h2
      simp only [HistOp.run, img_s_invertlut, bind_apply, OutPartial, allocImg,
        convert_ok _ _ h1, convert_ok _ _ h2]
      exact invoke_tail_run env _ _ (fun _ => VALUE.object w.objs.length) _
    · intro input dmask h1
      simp only [HistOp.run, img_s_buildlut, bind_apply, OutPartial, allocImg,
        convert_ok _ _ h1]
      exact invoke_tail_run env _ _ (fun _ => VALUE.object w.objs.length) _
    · intro in_max out_max lb lw ps pm ph s m h cin cout clb clw cps cpm cph cs cm ch
        h1 h2 h3 h4 h5 h6 h7 h8 h9 h10
      simp only [HistOp.run, img_s_tone_build_range, bind_apply, OutPartial, allocImg,
        convert_ok _ _ h1, convert_ok _ _ h2, convert_ok _ _ h3, convert_ok _ _ h4,
        convert_ok _ _ h5, convert_ok _ _ h6, convert_ok _ _ h7, convert_ok _ _ h8,
        convert_ok _ _ h9, convert_ok _ _ h10]
      exact invoke_tail_run env _ _ (fun _ => VALUE.object w.objs.length) _
    · intro lb lw ps pm ph s m h clb clw cps cpm cph cs cm ch h1 h2 h3 h4 h5 h6 h7 h8
      simp only [HistOp.run, img_s_tone_build, bind_apply, OutPartial, allocImg,
        convert_ok _ _ h1, convert_ok _ _ h2, convert_ok _ _ h3, convert_ok _ _ h4,
        convert_ok _ _ h5, convert_ok _ _ h6, convert_ok _ _ h7, convert_ok _ _ h8]
      exact invoke_tail_run env _ _ (fun _ => VALUE.object w.objs.length) _

theorem backend_failure_surfaces_witness :
    (HistOp.run (sampleEnv 7 22) (VALUE.object 1) (HistOp.mpercent (VALUE.float ⟨0⟩))
        (sampleWorld [1, 2, 3])).1 =
      Except.error (Exn.lib_error "im_mpercent: null image") ∧
    (HistOp.run (sampleEnv 7 22) (VALUE.object 0) (HistOp.gammacorrect (VALUE.float ⟨0⟩))
        (sampleWorld [1, 2, 3])).1 = Except.ok (VALUE.object 2) :=
  ⟨(congrArg Prod.fst
      ((((backend_failure_surfaces (sampleEnv 7 22) (sampleWorld [1, 2, 3])).2.1 1 ⟨none⟩
        rfl).2.2.2.2.2.2.1 (VALUE.float ⟨0⟩) ⟨0⟩ rfl).1)).trans
      (by simp [afterCall, sampleEnv, sampleLib, okReply, sampleWorld]),
   (congrArg Prod.fst
      (((backend_failure_surfaces (sampleEnv 7 22) (sampleWorld [1, 2, 3])).2.1 0
        ⟨some (rowImage [1, 2, 3])⟩ rfl).2.2.2.2.2.1 (VALUE.float ⟨0⟩) ⟨0⟩ rfl)).trans rfl⟩

end RubyVips
